import Mathlib

/-!
Shallow embedding of the graph-to-shader-code compiler in
`io_scene_godot/converters/material/script_shader/node_converters.py`,
together with theorems settling the frozen claims about it.

Host-side floating point values are carried as their printed text (the
program only ever interpolates them into shader source), and the external
collaborators that are not part of the source file (the FragmentShaderLink
aggregate, the shader function registry, the Blender node/socket/link data
model) are modelled from the specification, as marked on each definition.
-/

namespace NodeConv

/-- A word character in the sense of the regex class backslash-w restricted
to ASCII: letters, digits and the underscore. -/
def isWordChar (c : Char) : Bool := c.isAlphanum || c = '_'

/-- `filter_id_illegal_char`: drop every non word character of the string and
lower-case the remainder. -/
def filter_id_illegal_char (s : String) : String :=
  String.mk ((s.data.filter isWordChar).map Char.toLower)

/-- The decimal digit character for a value below ten. -/
def digitChar (d : Nat) : Char := Char.ofNat (48 + d)

/-- Fuel-driven helper for the decimal digit list of a natural number. -/
def natDigitsAux : Nat → Nat → List Char
  | 0, _ => []
  | fuel + 1, n =>
      if n < 10 then [digitChar n]
      else natDigitsAux fuel (n / 10) ++ [digitChar (n % 10)]

/-- The decimal digit list of a natural number, most significant first,
modelling the rendering that the percent-d format performs. -/
def natDigits (n : Nat) : List Char := natDigitsAux (n + 1) n

/-- Decimal rendering of a natural number. -/
def natStr (n : Nat) : String := String.mk (natDigits n)

/-- Lower-casing of a string, modelling the Python str.lower method on
ASCII strings. -/
def strLower (s : String) : String := String.mk (s.data.map Char.toLower)

/-- The type tag of a Blender node socket, as the `socket.type` strings the
source file distinguishes. -/
inductive SocketType where
  | VALUE
  | VECTOR
  | RGBA
  | SHADER
deriving DecidableEq

/-- `socket_to_type_string`: the shader-language type of a socket; the
assert on an unknown type is modelled as `none`. -/
def socket_to_type_string : SocketType → Option String
  | .RGBA => some "vec4"
  | .VECTOR => some "vec3"
  | .VALUE => some "float"
  | .SHADER => none

/-- `generate_socket_assignment`: assign one socket variable to another,
inserting the type conversion; the final assert on an unsupported pairing is
modelled as `none`. -/
def generate_socket_assignment (to_socket_id : String) (to_socket_type : SocketType)
    (from_socket_id : String) (from_socket_type : SocketType) : Option String :=
  if to_socket_type = from_socket_type then
    some (to_socket_id ++ " = " ++ from_socket_id)
  else if to_socket_type = .VALUE ∧ from_socket_type = .VECTOR then
    some (to_socket_id ++ " = dot(" ++ from_socket_id ++ ", vec3(0.333333, 0.333333, 0.333333))")
  else if to_socket_type = .VALUE ∧ from_socket_type = .RGBA then
    some (to_socket_id ++ " = dot(" ++ from_socket_id ++ ".rgb, vec3(0.2126, 0.7152, 0.0722))")
  else if to_socket_type = .VECTOR ∧ from_socket_type = .VALUE then
    some (to_socket_id ++ " = vec3(" ++ from_socket_id ++ ", " ++ from_socket_id ++ ", "
      ++ from_socket_id ++ ")")
  else if to_socket_type = .RGBA ∧ from_socket_type = .VALUE then
    some (to_socket_id ++ " = vec4(" ++ from_socket_id ++ ", " ++ from_socket_id ++ ", "
      ++ from_socket_id ++ ", " ++ from_socket_id ++ ")")
  else if to_socket_type = .RGBA ∧ from_socket_type = .VECTOR then
    some (to_socket_id ++ " = vec4(" ++ from_socket_id ++ ", 1.0)")
  else if to_socket_type = .VECTOR ∧ from_socket_type = .RGBA then
    some (to_socket_id ++ " = " ++ from_socket_id ++ ".rgb")
  else
    none

/-- C1: for every pair of socket types drawn from VALUE, VECTOR and RGBA,
`generate_socket_assignment` returns exactly the assignment text of the
specification: identical types copy directly; VECTOR to VALUE is a dot
product with vec3(0.333333, 0.333333, 0.333333); RGBA to VALUE is a dot of
the rgb channels with the perceptual weights vec3(0.2126, 0.7152, 0.0722);
VALUE to VECTOR broadcasts into three components; VALUE to RGBA broadcasts
into all four components, alpha included; VECTOR to RGBA appends alpha 1.0;
RGBA to VECTOR takes the rgb part.  Within this set of types no pairing is
left to the assertion branch. -/
theorem c1_socket_assignment_exact :
    ∀ t f : String,
      generate_socket_assignment t .VALUE f .VALUE = some (t ++ " = " ++ f)
      ∧ generate_socket_assignment t .VECTOR f .VECTOR = some (t ++ " = " ++ f)
      ∧ generate_socket_assignment t .RGBA f .RGBA = some (t ++ " = " ++ f)
      ∧ generate_socket_assignment t .VALUE f .VECTOR =
          some (t ++ " = dot(" ++ f ++ ", vec3(0.333333, 0.333333, 0.333333))")
      ∧ generate_socket_assignment t .VALUE f .RGBA =
          some (t ++ " = dot(" ++ f ++ ".rgb, vec3(0.2126, 0.7152, 0.0722))")
      ∧ generate_socket_assignment t .VECTOR f .VALUE =
          some (t ++ " = vec3(" ++ f ++ ", " ++ f ++ ", " ++ f ++ ")")
      ∧ generate_socket_assignment t .RGBA f .VALUE =
          some (t ++ " = vec4(" ++ f ++ ", " ++ f ++ ", " ++ f ++ ", " ++ f ++ ")")
      ∧ generate_socket_assignment t .RGBA f .VECTOR =
          some (t ++ " = vec4(" ++ f ++ ", 1.0)")
      ∧ generate_socket_assignment t .VECTOR f .RGBA =
          some (t ++ " = " ++ f ++ ".rgb") := by
  intro t f
  refine ⟨rfl, rfl, rfl, rfl, rfl, rfl, rfl, rfl, rfl⟩

/-- Modelled from the spec (§3 Shader Link): the fixed closed set of named
shading properties carried by a FragmentShaderLink; the shader_links module
is an external collaborator of the source file. -/
inductive PropName where
  | albedo
  | alpha
  | normal
  | tangent
  | specular
  | metallic
  | roughness
  | transmission
deriving DecidableEq

/-- The property name string used when forming generated identifiers. -/
def PropName.str : PropName → String
  | .albedo => "albedo"
  | .alpha => "alpha"
  | .normal => "normal"
  | .tangent => "tangent"
  | .specular => "specular"
  | .metallic => "metallic"
  | .roughness => "roughness"
  | .transmission => "transmission"

/-- Modelled from the spec (§3): a Shader Link aggregate, each property
independently unbound or holding a generated identifier. -/
structure FragmentShaderLink where
  albedo : Option String := none
  alpha : Option String := none
  normal : Option String := none
  tangent : Option String := none
  specular : Option String := none
  metallic : Option String := none
  roughness : Option String := none
  transmission : Option String := none
deriving DecidableEq

/-- The ALPHA property name constant of FragmentShaderLink. -/
def FragmentShaderLink.ALPHA : PropName := .alpha

/-- The ALBEDO property name constant of FragmentShaderLink. -/
def FragmentShaderLink.ALBEDO : PropName := .albedo

/-- The NORMAL property name constant of FragmentShaderLink. -/
def FragmentShaderLink.NORMAL : PropName := .normal

/-- The TANGENT property name constant of FragmentShaderLink. -/
def FragmentShaderLink.TANGENT : PropName := .tangent

/-- Modelled from the spec (§3): the fixed iteration order of the shader
link properties. -/
def FragmentShaderLink.ALL_PROPERTIES : List PropName :=
  [.albedo, .alpha, .normal, .tangent, .specular, .metallic, .roughness, .transmission]

/-- Per-property read access of a FragmentShaderLink. -/
def FragmentShaderLink.get_property (l : FragmentShaderLink) : PropName → Option String
  | .albedo => l.albedo
  | .alpha => l.alpha
  | .normal => l.normal
  | .tangent => l.tangent
  | .specular => l.specular
  | .metallic => l.metallic
  | .roughness => l.roughness
  | .transmission => l.transmission

/-- Per-property write access of a FragmentShaderLink. -/
def FragmentShaderLink.set_property (l : FragmentShaderLink) (p : PropName)
    (v : String) : FragmentShaderLink :=
  match p with
  | .albedo => { l with albedo := some v }
  | .alpha => { l with alpha := some v }
  | .normal => { l with normal := some v }
  | .tangent => { l with tangent := some v }
  | .specular => { l with specular := some v }
  | .metallic => { l with metallic := some v }
  | .roughness => { l with roughness := some v }
  | .transmission => { l with transmission := some v }

/-- Modelled from the spec (§3): the static property-to-type table of the
Shader Link (vector-valued color and direction properties, scalar factors). -/
def FragmentShaderLink.get_property_type : PropName → String
  | .albedo => "vec3"
  | .alpha => "float"
  | .normal => "vec3"
  | .tangent => "vec3"
  | .specular => "float"
  | .metallic => "float"
  | .roughness => "float"
  | .transmission => "float"

/-- A host-side literal value carried on a socket; scalar and vector
components keep the text the host prints for them. -/
inductive BValue where
  | float (s : String)
  | vec (comps : List String)
  | euler (comps : List String)
deriving DecidableEq

/-- `blender_value_to_string`: convert a host default value into shader
literal syntax. -/
def blender_value_to_string : BValue → String
  | .vec comps =>
      "vec" ++ natStr comps.length ++ "(" ++ String.intercalate ", " comps ++ ")"
  | .euler comps => "vec3(" ++ String.intercalate ", " comps ++ ")"
  | .float s => "float(" ++ s ++ ")"

/-- A Blender node socket, read-only input data of the converters.
`default_is_zero` records the outcome of the host-side numeric test
`default_value == 0.0`. -/
structure Socket where
  name : String
  type : SocketType
  identifier : String := ""
  is_output : Bool := false
  is_linked : Bool := false
  default_value : BValue := .float "0.0"
  default_is_zero : Bool := false
deriving DecidableEq

/-- A Blender shader node with the parameters the converters read. -/
structure BlNode where
  bl_idname : String := ""
  name : String := ""
  inputs : List Socket := []
  outputs : List Socket := []
  blend_type : String := ""
  use_clamp : Bool := false
  image : Option String := none
deriving DecidableEq

/-- The texture classification hint of a registered texture binding. -/
inductive Hint where
  | NONE
  | ALBEDO
  | NORMAL
deriving DecidableEq

/-- A texture binding registered while processing a sampling node. -/
structure Texture where
  image : Option String
  tmp_identifier : String
  hint : Hint
deriving DecidableEq

/-- ShadingFlags: the booleans raised by a node while compositing. -/
structure ShadingFlags where
  transparent : Bool := false
  glass : Bool := false
  inv_view_mat_used : Bool := false
  inv_model_mat_used : Bool := false
  uv_or_tangent_used : Bool := false
  transmission_used : Bool := false
  aabb_tex_coord_used : Bool := false
deriving DecidableEq

/-- A value bound to a socket in a converter's socket maps: a generated
variable identifier for a plain socket, a shader link aggregate for a
shader-typed socket. -/
inductive Binding where
  | var (id : String)
  | shader (l : FragmentShaderLink)
deriving DecidableEq

/-- The variable identifier carried by a binding, failing on a link. -/
def Binding.asVar : Binding → Option String
  | .var s => some s
  | .shader _ => none

/-- The shader link carried by a binding, failing on a variable. -/
def Binding.asShader : Binding → Option FragmentShaderLink
  | .var _ => none
  | .shader l => some l

/-- Lookup in a socket-binding dictionary keyed by socket name. -/
def dictGet (m : List (String × Binding)) (k : String) : Option Binding :=
  (m.find? (fun kv => kv.1 = k)).map (fun kv => kv.2)

/-- Insert-or-replace in a socket-binding dictionary keyed by socket name,
with the replacement semantics of a Python dict. -/
def dictSet (m : List (String × Binding)) (k : String) (v : Binding) :
    List (String × Binding) :=
  if m.any (fun kv => kv.1 = k) then
    m.map (fun kv => if kv.1 = k then (k, v) else kv)
  else
    m ++ [(k, v)]

/-- Insertion into the declared-identifier set, modelled as a duplicate-free
list. -/
def idInsert (l : List String) (id : String) : List String :=
  if id ∈ l then l else l ++ [id]

/-- The mutable state of a NodeConverterBase instance: identifier counters,
emitted text regions, socket maps, flags, warnings (the diagnostics stream)
and registered textures. -/
structure ConverterState where
  idPref : String
  variable_count : Nat := 0
  input_var_count : Nat := 0
  output_var_count : Nat := 0
  functions : List String := []
  textures : List Texture := []
  input_definitions : List String := ["// input sockets handling"]
  output_definitions : List String := ["// output sockets definitions"]
  local_code : List String := ["\n"]
  defined_ids : List String := []
  flags : ShadingFlags := {}
  warnings : List String := []
  in_sockets_map : List (String × Binding) := []
  out_sockets_map : List (String × Binding) := []
deriving DecidableEq

/-- NodeConverterBase construction for the node at the given position in the
processing order. -/
def init_converter (index : Nat) : ConverterState :=
  { idPref := "node" ++ natStr index ++ "_" }

/-- `generate_socket_id_str`: a fresh variable name for a socket, combining
the node prefix, the direction counter and the sanitized socket name. -/
def generate_socket_id_str (st : ConverterState) (socket : Socket) :
    String × ConverterState :=
  if socket.is_output then
    (st.idPref ++ "out" ++ natStr st.output_var_count ++ "_"
        ++ filter_id_illegal_char socket.name,
     { st with output_var_count := st.output_var_count + 1 })
  else
    (st.idPref ++ "in" ++ natStr st.input_var_count ++ "_"
        ++ filter_id_illegal_char socket.name,
     { st with input_var_count := st.input_var_count + 1 })

/-- `generate_shader_id_str`: a fresh variable name for one property of a
shader link carried on a socket. -/
def generate_shader_id_str (st : ConverterState) (socket : Socket)
    (shader_prop_name : String) : String × ConverterState :=
  if socket.is_output then
    (st.idPref ++ filter_id_illegal_char
        (socket.name ++ "_out" ++ natStr st.output_var_count ++ "_" ++ shader_prop_name),
     { st with output_var_count := st.output_var_count + 1 })
  else
    (st.idPref ++ filter_id_illegal_char
        (socket.name ++ "_in" ++ natStr st.input_var_count ++ "_" ++ shader_prop_name),
     { st with input_var_count := st.input_var_count + 1 })

/-- `generate_variable_id_str`: a fresh scratch-variable name from a hint. -/
def generate_variable_id_str (st : ConverterState) (hint : String) :
    String × ConverterState :=
  (st.idPref ++ "var" ++ natStr st.variable_count ++ "_" ++ filter_id_illegal_char hint,
   { st with variable_count := st.variable_count + 1 })

/-- `generate_tmp_texture_id`: the temporary texture variable name; the host
hash of the key is an input of the model. -/
def generate_tmp_texture_id (st : ConverterState) (hashValue : Nat) : String :=
  st.idPref ++ filter_id_illegal_char ("tex" ++ natStr hashValue ++ "_")

/-- `add_function_call`: record the invoked function and append the call
statement. -/
def add_function_call (st : ConverterState) (functionName : String)
    (args : List String) : ConverterState :=
  { st with
    functions := idInsert st.functions functionName,
    local_code := st.local_code
      ++ [functionName ++ "(" ++ String.intercalate ", " args ++ ");"] }

/-- `yup_to_zup`: in-place axis conversion call.  Modelled from the spec
(§4.4, §6): `find_function_by_name` is the external registry lookup and the
space-conversion functions are always registered, so the lookup resolves to
the function of the same name. -/
def yup_to_zup (st : ConverterState) (var : String) : ConverterState :=
  add_function_call st "space_convert_yup_to_zup" [var]

/-- `zup_to_yup`: in-place axis conversion call (registry modelled as in
`yup_to_zup`). -/
def zup_to_yup (st : ConverterState) (var : String) : ConverterState :=
  add_function_call st "space_convert_zup_to_yup" [var]

/-- `view_to_model`: in-place space conversion call, raising the
inverse-matrix flags (registry modelled as in `yup_to_zup`). -/
def view_to_model (st : ConverterState) (var : String) (is_direction : Bool := true) :
    ConverterState :=
  let st := { st with flags := { st.flags with
    inv_view_mat_used := true, inv_model_mat_used := true } }
  if is_direction then
    add_function_call st "dir_space_convert_view_to_model"
      [var, "INV_MODEL_MAT", "INV_VIEW_MAT"]
  else
    add_function_call st "point_space_convert_view_to_model"
      [var, "INV_MODEL_MAT", "INV_VIEW_MAT"]

/-- `model_to_view`: in-place space conversion call (registry modelled as in
`yup_to_zup`). -/
def model_to_view (st : ConverterState) (var : String) (is_direction : Bool := true) :
    ConverterState :=
  if is_direction then
    add_function_call st "dir_space_convert_model_to_view"
      [var, "INV_CAMERA_MATRIX", "WORLD_MATRIX"]
  else
    add_function_call st "point_space_convert_model_to_view"
      [var, "INV_CAMERA_MATRIX", "WORLD_MATRIX"]

/-- `view_to_world`: in-place space conversion call, raising the inverse
view matrix flag (registry modelled as in `yup_to_zup`). -/
def view_to_world (st : ConverterState) (var : String) (is_direction : Bool := true) :
    ConverterState :=
  let st := { st with flags := { st.flags with inv_view_mat_used := true } }
  if is_direction then
    add_function_call st "dir_space_convert_view_to_world" [var, "INV_VIEW_MAT"]
  else
    add_function_call st "point_space_convert_view_to_world" [var, "INV_VIEW_MAT"]

/-- `world_to_view`: in-place space conversion call (registry modelled as in
`yup_to_zup`). -/
def world_to_view (st : ConverterState) (var : String) (is_direction : Bool := true) :
    ConverterState :=
  if is_direction then
    add_function_call st "dir_space_convert_world_to_view" [var, "INV_CAMERA_MATRIX"]
  else
    add_function_call st "point_space_convert_world_to_view" [var, "INV_CAMERA_MATRIX"]

/-- One iteration of the property loop of `mix_frag_shader_link`: read both
sides of the property, apply the alpha default of 1.0 for a one-sided alpha,
generate the scratch identifier, and either emit the mix statement or pass
the single bound side through. -/
def mix_step (out_socket : Socket) (input_a input_b : FragmentShaderLink)
    (fac : String) (acc : ConverterState × FragmentShaderLink) (pname : PropName) :
    ConverterState × FragmentShaderLink :=
  let prop_a := input_a.get_property pname
  let prop_b := input_b.get_property pname
  let filled : Option String × Option String :=
    if pname = FragmentShaderLink.ALPHA then
      if prop_a.isSome ∧ prop_b = none then (prop_a, some "1.0")
      else if prop_b.isSome ∧ prop_a = none then (some "1.0", prop_b)
      else (prop_a, prop_b)
    else (prop_a, prop_b)
  let gen := generate_shader_id_str acc.1 out_socket (PropName.str pname)
  let mix_result_id := gen.1
  let st := gen.2
  match filled with
  | (some a, some b) =>
      ({ st with local_code := st.local_code
          ++ [mix_result_id ++ " = mix(" ++ a ++ ", " ++ b ++ ", " ++ fac ++ ")"] },
       acc.2.set_property pname mix_result_id)
  | (some a, none) => (st, acc.2.set_property pname a)
  | (none, some b) => (st, acc.2.set_property pname b)
  | (none, none) => (st, acc.2)

/-- `mix_frag_shader_link`: mix two shader links property by property with
the given factor, writing the result into the output link. -/
def mix_frag_shader_link (st : ConverterState) (out_socket : Socket)
    (input_a input_b : FragmentShaderLink) (output : FragmentShaderLink)
    (fac : String) : ConverterState × FragmentShaderLink :=
  FragmentShaderLink.ALL_PROPERTIES.foldl
    (mix_step out_socket input_a input_b fac) (st, output)

/-- Claim-side value of side A of a property after the alpha rule: a missing
alpha opposite a bound alpha becomes the literal 1.0. -/
def alpha_filled_a (a b : FragmentShaderLink) (p : PropName) : Option String :=
  if p = .alpha ∧ (b.get_property p).isSome ∧ a.get_property p = none then some "1.0"
  else a.get_property p

/-- Claim-side value of side B of a property after the alpha rule. -/
def alpha_filled_b (a b : FragmentShaderLink) (p : PropName) : Option String :=
  if p = .alpha ∧ (a.get_property p).isSome ∧ b.get_property p = none then some "1.0"
  else b.get_property p

/-- The position of a property in the fixed property order. -/
def prop_index : PropName → Nat
  | .albedo => 0
  | .alpha => 1
  | .normal => 2
  | .tangent => 3
  | .specular => 4
  | .metallic => 5
  | .roughness => 6
  | .transmission => 7

/-- The generated shader property identifier for an output socket at a given
counter value. -/
def shader_id_of (pref sname : String) (cnt : Nat) (p : PropName) : String :=
  pref ++ filter_id_illegal_char (sname ++ "_out" ++ natStr cnt ++ "_" ++ PropName.str p)

/-- The identifier the mixing loop generates for a property, given the state
at entry of `mix_frag_shader_link`. -/
def mix_id_at (st : ConverterState) (sock : Socket) (p : PropName) : String :=
  shader_id_of st.idPref sock.name (st.output_var_count + prop_index p) p

/-- The statement text emitted when both sides of a property are bound. -/
def mix_stmt_of (pref sname : String) (cnt : Nat) (p : PropName) (x y fac : String) :
    String :=
  shader_id_of pref sname cnt p ++ " = mix(" ++ x ++ ", " ++ y ++ ", " ++ fac ++ ")"

/-- The statements the mixing loop emits for a list of properties, starting
from a given output counter value. -/
def mix_code_from (a b : FragmentShaderLink) (fac : String) (pref sname : String) :
    Nat → List PropName → List String
  | _, [] => []
  | cnt, p :: ps =>
      (match alpha_filled_a a b p, alpha_filled_b a b p with
       | some x, some y => [mix_stmt_of pref sname cnt p x y fac]
       | _, _ => []) ++ mix_code_from a b fac pref sname (cnt + 1) ps

/-- The position of the first occurrence of a property in a list. -/
def prop_pos (p : PropName) : List PropName → Nat
  | [] => 0
  | q :: ps => if p = q then 0 else prop_pos p ps + 1

/-- The converter state produced by one mixing iteration. -/
def mix_step_state (sock : Socket) (a b : FragmentShaderLink) (fac : String)
    (st : ConverterState) (p : PropName) : ConverterState :=
  let gen := generate_shader_id_str st sock (PropName.str p)
  match alpha_filled_a a b p, alpha_filled_b a b p with
  | some x, some y =>
      { gen.2 with local_code := gen.2.local_code
          ++ [gen.1 ++ " = mix(" ++ x ++ ", " ++ y ++ ", " ++ fac ++ ")"] }
  | _, _ => gen.2

/-- The output link produced by one mixing iteration. -/
def mix_step_out (sock : Socket) (a b : FragmentShaderLink) (_fac : String)
    (st : ConverterState) (out : FragmentShaderLink) (p : PropName) :
    FragmentShaderLink :=
  match alpha_filled_a a b p, alpha_filled_b a b p with
  | some _, some _ =>
      out.set_property p (generate_shader_id_str st sock (PropName.str p)).1
  | some x, none => out.set_property p x
  | none, some y => out.set_property p y
  | none, none => out

theorem get_set_self (l : FragmentShaderLink) (p : PropName) (v : String) :
    (l.set_property p v).get_property p = some v := by
  cases p <;> simp [FragmentShaderLink.set_property, FragmentShaderLink.get_property]

theorem get_set_ne (l : FragmentShaderLink) (v : String) {p q : PropName} (h : q ≠ p) :
    (l.set_property p v).get_property q = l.get_property q := by
  cases p <;> cases q <;>
    simp_all [FragmentShaderLink.set_property, FragmentShaderLink.get_property]

theorem mix_step_eq (sock : Socket) (a b : FragmentShaderLink) (fac : String)
    (st : ConverterState) (out : FragmentShaderLink) (p : PropName) :
    mix_step sock a b fac (st, out) p =
      (mix_step_state sock a b fac st p, mix_step_out sock a b fac st out p) := by
  unfold mix_step mix_step_state mix_step_out alpha_filled_a alpha_filled_b
    FragmentShaderLink.ALPHA
  by_cases hp : p = PropName.alpha <;>
    rcases hA : a.get_property p with _ | x <;>
      rcases hB : b.get_property p with _ | y <;>
        simp [hp, hA, hB]

theorem mix_step_state_pref (sock : Socket) (a b : FragmentShaderLink) (fac : String)
    (st : ConverterState) (p : PropName) :
    (mix_step_state sock a b fac st p).idPref = st.idPref := by
  unfold mix_step_state generate_shader_id_str
  rcases hA : alpha_filled_a a b p with _ | x <;>
    rcases hB : alpha_filled_b a b p with _ | y <;>
      by_cases ho : sock.is_output <;> simp [ho]

theorem mix_step_state_cnt {sock : Socket} (ho : sock.is_output = true)
    (a b : FragmentShaderLink) (fac : String) (st : ConverterState) (p : PropName) :
    (mix_step_state sock a b fac st p).output_var_count = st.output_var_count + 1 := by
  unfold mix_step_state generate_shader_id_str
  rcases hA : alpha_filled_a a b p with _ | x <;>
    rcases hB : alpha_filled_b a b p with _ | y <;> simp [ho]

theorem mix_step_state_code {sock : Socket} (ho : sock.is_output = true)
    (a b : FragmentShaderLink) (fac : String) (st : ConverterState) (p : PropName) :
    (mix_step_state sock a b fac st p).local_code =
      st.local_code ++
        (match alpha_filled_a a b p, alpha_filled_b a b p with
         | some x, some y =>
             [mix_stmt_of st.idPref sock.name st.output_var_count p x y fac]
         | _, _ => []) := by
  unfold mix_step_state generate_shader_id_str mix_stmt_of shader_id_of
  rcases hA : alpha_filled_a a b p with _ | x <;>
    rcases hB : alpha_filled_b a b p with _ | y <;> simp [ho]

theorem mix_step_out_get_self {sock : Socket} (ho : sock.is_output = true)
    (a b : FragmentShaderLink) (fac : String) (st : ConverterState)
    (out : FragmentShaderLink) (p : PropName) :
    (mix_step_out sock a b fac st out p).get_property p =
      match alpha_filled_a a b p, alpha_filled_b a b p with
      | some _, some _ =>
          some (shader_id_of st.idPref sock.name st.output_var_count p)
      | some x, none => some x
      | none, some y => some y
      | none, none => out.get_property p := by
  unfold mix_step_out generate_shader_id_str shader_id_of
  rcases hA : alpha_filled_a a b p with _ | x <;>
    rcases hB : alpha_filled_b a b p with _ | y <;> simp [ho, get_set_self]

theorem mix_step_out_get_ne (sock : Socket) (a b : FragmentShaderLink) (fac : String)
    (st : ConverterState) (out : FragmentShaderLink) {p q : PropName} (h : q ≠ p) :
    (mix_step_out sock a b fac st out p).get_property q = out.get_property q := by
  unfold mix_step_out
  rcases hA : alpha_filled_a a b p with _ | x <;>
    rcases hB : alpha_filled_b a b p with _ | y <;> simp [get_set_ne _ _ h]

theorem mix_fold_get_notmem (sock : Socket) (a b : FragmentShaderLink) (fac : String) :
    ∀ (props : List PropName) (st : ConverterState) (out : FragmentShaderLink)
      (p : PropName), p ∉ props →
      ((props.foldl (mix_step sock a b fac) (st, out)).2).get_property p =
        out.get_property p := by
  intro props
  induction props with
  | nil => intro st out p _; rfl
  | cons q ps ih =>
      intro st out p hp
      rw [List.foldl_cons, mix_step_eq]
      rw [ih _ _ p (fun hmem => hp (List.mem_cons_of_mem q hmem))]
      exact mix_step_out_get_ne sock a b fac st out
        (fun hqe => hp (hqe ▸ List.mem_cons_self q ps))

theorem mix_fold_state (sock : Socket) (ho : sock.is_output = true)
    (a b : FragmentShaderLink) (fac : String) :
    ∀ (props : List PropName) (st : ConverterState) (out : FragmentShaderLink),
      ((props.foldl (mix_step sock a b fac) (st, out)).1).idPref = st.idPref ∧
      ((props.foldl (mix_step sock a b fac) (st, out)).1).output_var_count =
        st.output_var_count + props.length ∧
      ((props.foldl (mix_step sock a b fac) (st, out)).1).local_code =
        st.local_code ++
          mix_code_from a b fac st.idPref sock.name st.output_var_count props := by
  intro props
  induction props with
  | nil => intro st out; exact ⟨rfl, rfl, by simp [mix_code_from]⟩
  | cons q ps ih =>
      intro st out
      rw [List.foldl_cons, mix_step_eq]
      obtain ⟨ih1, ih2, ih3⟩ := ih (mix_step_state sock a b fac st q)
        (mix_step_out sock a b fac st out q)
      refine ⟨?_, ?_, ?_⟩
      · rw [ih1, mix_step_state_pref]
      · rw [ih2, mix_step_state_cnt ho]
        simp [List.length_cons]
        omega
      · rw [ih3, mix_step_state_pref, mix_step_state_cnt ho, mix_step_state_code ho,
          mix_code_from, List.append_assoc]

theorem mix_fold_get (sock : Socket) (ho : sock.is_output = true)
    (a b : FragmentShaderLink) (fac : String) :
    ∀ (props : List PropName) (st : ConverterState) (out : FragmentShaderLink)
      (p : PropName), props.Nodup → p ∈ props →
      ((props.foldl (mix_step sock a b fac) (st, out)).2).get_property p =
        match alpha_filled_a a b p, alpha_filled_b a b p with
        | some _, some _ =>
            some (shader_id_of st.idPref sock.name
              (st.output_var_count + prop_pos p props) p)
        | some x, none => some x
        | none, some y => some y
        | none, none => out.get_property p := by
  intro props
  induction props with
  | nil => intro st out p _ hmem; exact absurd hmem (List.not_mem_nil p)
  | cons q ps ih =>
      intro st out p hnd hmem
      rw [List.foldl_cons, mix_step_eq]
      by_cases hpq : p = q
      · subst hpq
        have hnotps : p ∉ ps := (List.nodup_cons.mp hnd).1
        rw [mix_fold_get_notmem sock a b fac ps _ _ p hnotps,
          mix_step_out_get_self ho]
        simp [prop_pos]
      · have hps : p ∈ ps := by
          rcases List.mem_cons.mp hmem with h | h
          · exact absurd h hpq
          · exact h
        rw [ih _ _ p (List.nodup_cons.mp hnd).2 hps]
        have hpos : prop_pos p (q :: ps) = prop_pos p ps + 1 := by
          simp [prop_pos, hpq]
        rcases hA : alpha_filled_a a b p with _ | x <;>
          rcases hB : alpha_filled_b a b p with _ | y <;>
            simp [hA, hB, mix_step_state_pref, mix_step_state_cnt ho, hpos,
              mix_step_out_get_ne sock a b fac st out hpq]
        have harith : st.output_var_count + 1 + prop_pos p ps =
            st.output_var_count + (prop_pos p ps + 1) := by omega
        rw [harith]

/-- The output socket of a shader-mixing node: the first output, a
shader-typed output socket carrying only its name. -/
def mixOutSocket (sname : String) : Socket :=
  { name := sname, type := .SHADER, is_output := true }

/-- C2: property-by-property behavior of `mix_frag_shader_link`.  For each
property of the fixed set: a one-sided alpha is completed with the literal
1.0 before mixing; when both sides are then bound, a statement
mix(sideA, sideB, factor) in that argument order is emitted into a freshly
generated identifier which is bound on the output; when exactly one side is
bound, that identifier passes through unchanged and no statement is
emitted; when neither side is bound the output property keeps its initial
(unbound) value.  The emitted statements are exactly the listed ones, and
no property outside the fixed closed set exists to be touched. -/
theorem c2_mix_shader_link_rules (st : ConverterState) (sname : String)
    (a b output : FragmentShaderLink) (fac : String) :
    (∀ p : PropName,
      ((mix_frag_shader_link st (mixOutSocket sname) a b output fac).2).get_property p =
        match alpha_filled_a a b p, alpha_filled_b a b p with
        | some _, some _ => some (mix_id_at st (mixOutSocket sname) p)
        | some x, none => some x
        | none, some y => some y
        | none, none => output.get_property p) ∧
    ((mix_frag_shader_link st (mixOutSocket sname) a b output fac).1).local_code =
      st.local_code ++ mix_code_from a b fac st.idPref sname st.output_var_count
        FragmentShaderLink.ALL_PROPERTIES := by
  have ho : (mixOutSocket sname).is_output = true := rfl
  constructor
  · intro p
    rw [mix_frag_shader_link, mix_fold_get (mixOutSocket sname) ho a b fac
      FragmentShaderLink.ALL_PROPERTIES st output p (by decide)
      (by cases p <;> decide)]
    have hpos : prop_pos p FragmentShaderLink.ALL_PROPERTIES = prop_index p := by
      cases p <;> rfl
    rw [hpos]
    rfl
  · rw [mix_frag_shader_link]
    exact (mix_fold_state (mixOutSocket sname) ho a b fac
      FragmentShaderLink.ALL_PROPERTIES st output).2.2

/-- Lookup of a node output socket by name, `none` modelling the KeyError
of a missing key. -/
def BlNode.output_socket (node : BlNode) (sname : String) : Option Socket :=
  node.outputs.find? (fun s => s.name = sname)

/-- The opening loop of `TexCoordNodeConverter.parse_node_to_fragment`: bind
every linked output socket to a freshly generated identifier. -/
def texcoord_bind_outputs (st : ConverterState) (node : BlNode) : ConverterState :=
  node.outputs.foldl
    (fun st socket =>
      if socket.is_linked then
        let gen := generate_socket_id_str st socket
        { gen.2 with
          out_sockets_map := dictSet gen.2.out_sockets_map socket.name (.var gen.1) }
      else st)
    st

/-- `TexCoordNodeConverter.parse_node_to_fragment`: emit the code of every
linked output of the texture-coordinate node.  Note that the Generated
branch writes its identifier into the map entry of the Reflection socket,
exactly as the source line does. -/
def texcoord_parse (st0 : ConverterState) (node : BlNode) : Option ConverterState := do
  let st := texcoord_bind_outputs st0 node
  let uv_socket ← node.output_socket "UV"
  let st ←
    if uv_socket.is_linked then do
      let uv_id ← (dictGet st.out_sockets_map "UV").bind Binding.asVar
      pure { st with local_code := st.local_code ++ [uv_id ++ " = vec3(UV, 0.0)"] }
    else pure st
  let window_socket ← node.output_socket "Window"
  let st ←
    if window_socket.is_linked then do
      let window_id ← (dictGet st.out_sockets_map "Window").bind Binding.asVar
      pure { st with
        local_code := st.local_code ++ [window_id ++ " = vec3(SCREEN_UV, 0.0)"] }
    else pure st
  let camera_socket ← node.output_socket "Camera"
  let st ←
    if camera_socket.is_linked then do
      let camera_id ← (dictGet st.out_sockets_map "Camera").bind Binding.asVar
      pure { st with
        local_code := st.local_code ++ [camera_id ++ " = vec3(VERTEX.xy, -VERTEX.z)"] }
    else pure st
  let normal_socket ← node.output_socket "Normal"
  let st ←
    if normal_socket.is_linked then do
      let normal_id ← (dictGet st.out_sockets_map "Normal").bind Binding.asVar
      let st := { st with local_code := st.local_code ++ [normal_id ++ " = NORMAL"] }
      pure (yup_to_zup (view_to_model st normal_id) normal_id)
    else pure st
  let obj_socket ← node.output_socket "Object"
  let st ←
    if obj_socket.is_linked then do
      let object_id ← (dictGet st.out_sockets_map "Object").bind Binding.asVar
      let st := { st with local_code := st.local_code ++ [object_id ++ " = VERTEX"] }
      let st := yup_to_zup (view_to_model st object_id false) object_id
      pure { st with
        out_sockets_map := dictSet st.out_sockets_map obj_socket.name (.var object_id) }
    else pure st
  let ref_socket ← node.output_socket "Reflection"
  let st ←
    if ref_socket.is_linked then do
      let reflect_id ← (dictGet st.out_sockets_map "Reflection").bind Binding.asVar
      let st := { st with
        local_code := st.local_code ++ [reflect_id ++ " = reflect(normalize(VERTEX), NORMAL)"] }
      let st := yup_to_zup (view_to_model st reflect_id) reflect_id
      pure { st with
        out_sockets_map := dictSet st.out_sockets_map ref_socket.name (.var reflect_id) }
    else pure st
  let generated_socket ← node.output_socket "Generated"
  let st ←
    if generated_socket.is_linked then do
      let generated_id ← (dictGet st.out_sockets_map "Generated").bind Binding.asVar
      let st := { st with flags := { st.flags with aabb_tex_coord_used := true } }
      let st := { st with local_code := st.local_code ++ [generated_id ++ " = AABB_UVW"] }
      pure { st with
        out_sockets_map := dictSet st.out_sockets_map ref_socket.name (.var generated_id) }
    else pure st
  pure st

/-- A texture-coordinate node whose Reflection and Generated outputs are
both linked. -/
def c3_node : BlNode :=
  { bl_idname := "ShaderNodeTexCoord"
    name := "Texture Coordinate"
    outputs := [
      { name := "UV", type := .VECTOR, is_output := true },
      { name := "Window", type := .VECTOR, is_output := true },
      { name := "Camera", type := .VECTOR, is_output := true },
      { name := "Normal", type := .VECTOR, is_output := true },
      { name := "Object", type := .VECTOR, is_output := true },
      { name := "Reflection", type := .VECTOR, is_output := true, is_linked := true },
      { name := "Generated", type := .VECTOR, is_output := true, is_linked := true }] }

/-- C3: evaluating the texture-coordinate converter on a node whose
Reflection and Generated outputs are both linked shows the Reflection
socket-map entry being replaced with a different binding: after the
binding loop Reflection holds its own generated identifier, but the final
map holds the Generated output's identifier under the Reflection key, so a
bound socket is rebound to a different identifier. -/
theorem c3_texcoord_rebind_eval :
    dictGet (texcoord_bind_outputs (init_converter 0) c3_node).out_sockets_map
        "Reflection" = some (.var "node0_out0_reflection")
    ∧ (texcoord_parse (init_converter 0) c3_node).bind
        (fun s => dictGet s.out_sockets_map "Reflection")
        = some (.var "node0_out1_generated")
    ∧ (texcoord_parse (init_converter 0) c3_node).bind
        (fun s => dictGet s.out_sockets_map "Generated")
        = some (.var "node0_out1_generated")
    ∧ "node0_out1_generated" ≠ "node0_out0_reflection" := by
  refine ⟨rfl, rfl, rfl, by decide⟩

/-- Modelled from the spec (§6): the function descriptor the registry
returns for a node: shader function name, the input socket names fed to it,
and the output shading properties it produces. -/
structure FunctionDesc where
  name : String
  in_sockets : List String := []
  output_properties : List PropName := []
deriving DecidableEq

/-- Lookup of a node input socket by name, `none` modelling a missing key
(the dict-style get of the source). -/
def BlNode.input_socket (node : BlNode) (sname : String) : Option Socket :=
  node.inputs.find? (fun s => s.name = sname)

/-- The shading-flag updates at the head of
`BsdfNodeConverter.parse_node_to_fragment`: glass and transparent for the
respective closure kinds, tangent-usage for a linked Tangent socket,
transmission-usage for a linked Transmission socket with zero default. -/
def bsdf_flags_update (flags : ShadingFlags) (node : BlNode) : ShadingFlags :=
  let flags :=
    if node.bl_idname = "ShaderNodeBsdfGlass" then { flags with glass := true } else flags
  let flags :=
    if node.bl_idname = "ShaderNodeBsdfTransparent" ∨ node.bl_idname = "ShaderNodeBsdfGlass"
    then { flags with transparent := true } else flags
  let flags :=
    match node.input_socket "Tangent" with
    | some ts => if ts.is_linked then { flags with uv_or_tangent_used := true } else flags
    | none => flags
  let flags :=
    match node.input_socket "Transmission" with
    | some s =>
        if s.is_linked ∧ s.default_is_zero then { flags with transmission_used := true }
        else flags
    | none => flags
  flags

/-- Resolution of the function input arguments: for each declared input
socket name, the bound variable of that socket in the input map. -/
def resolve_in_args (m : List (String × Binding)) (node : BlNode) :
    List String → Option (List String)
  | [] => some []
  | sname :: rest => do
      let socket ← node.input_socket sname
      let v ← (dictGet m socket.name).bind Binding.asVar
      let vs ← resolve_in_args m node rest
      pure (v :: vs)

/-- Generation of the function output arguments: a fresh shader property
identifier per declared output property, bound on the output link. -/
def bsdf_gen_outputs (out_socket : Socket) :
    List PropName → ConverterState → FragmentShaderLink → List String →
    ConverterState × FragmentShaderLink × List String
  | [], st, link, acc => (st, link, acc)
  | p :: ps, st, link, acc =>
      let gen := generate_shader_id_str st out_socket (PropName.str p)
      bsdf_gen_outputs out_socket ps gen.2 (link.set_property p gen.1) (acc ++ [gen.1])

/-- One iteration of the closing Normal/Tangent loop of the BSDF converter:
fetch the socket variable, convert it from z-up world space into y-up view
space when the socket is linked, and bind it on the output link. -/
def bsdf_nt_step (st : ConverterState) (link : FragmentShaderLink) (pname : PropName) :
    Option Socket → Option (ConverterState × FragmentShaderLink)
  | none => some (st, link)
  | some socket => do
      let socket_var ← (dictGet st.in_sockets_map socket.name).bind Binding.asVar
      let st :=
        if socket.is_linked then world_to_view (zup_to_yup st socket_var) socket_var
        else st
      pure (st, link.set_property pname socket_var)

/-- `BsdfNodeConverter.parse_node_to_fragment`: raise the closure flags,
invoke the node's shader function over the declared inputs into fresh
output property identifiers, then bind the Normal and Tangent inputs on the
output link, space-converting them only when linked. -/
def bsdf_parse (st : ConverterState) (node : BlNode) (fn : FunctionDesc) :
    Option ConverterState := do
  let output_socket ← node.outputs.head?
  let st := { st with flags := bsdf_flags_update st.flags node }
  let func_in_args ← resolve_in_args st.in_sockets_map node fn.in_sockets
  let gen := bsdf_gen_outputs output_socket fn.output_properties st {} []
  let st := gen.1
  let output_shader_link := gen.2.1
  let func_out_args := gen.2.2
  let st := add_function_call st fn.name (func_in_args ++ func_out_args)
  let normal_socket := node.input_socket "Normal"
  let tangent_socket := node.input_socket "Tangent"
  let r1 ← bsdf_nt_step st output_shader_link FragmentShaderLink.NORMAL normal_socket
  let r2 ← bsdf_nt_step r1.1 r1.2 FragmentShaderLink.TANGENT tangent_socket
  pure { r2.1 with
    out_sockets_map :=
      dictSet r2.1.out_sockets_map output_socket.name (.shader r2.2) }

theorem find_map_set (k : String) (v : Binding) :
    ∀ rest : List (String × Binding), rest.any (fun kv => kv.1 = k) = true →
      (rest.map (fun kv => if kv.1 = k then (k, v) else kv)).find?
        (fun kv => kv.1 = k) = some (k, v) := by
  intro rest
  induction rest with
  | nil => simp
  | cons a l ih =>
      intro h
      by_cases ha : a.1 = k
      · simp [List.find?, ha]
      · simp only [List.any_cons, ha] at h
        simp only [List.map_cons, if_neg ha]
        rw [List.find?_cons_of_neg _ (by simp [ha])]
        exact ih (by simpa using h)

theorem dictGet_set_self (m : List (String × Binding)) (k : String) (v : Binding) :
    dictGet (dictSet m k v) k = some v := by
  by_cases h : m.any (fun kv => kv.1 = k)
  · unfold dictGet dictSet
    rw [if_pos h, find_map_set k v m h]
    rfl
  · unfold dictGet dictSet
    rw [if_neg h, List.find?_append]
    have hfalse : m.any (fun kv => kv.1 = k) = false := by
      cases hh : m.any (fun kv => kv.1 = k) with
      | false => rfl
      | true => exact absurd hh h
    have hnone : m.find? (fun kv => kv.1 = k) = none :=
      List.find?_eq_none.mpr (by
        intro x hx
        simpa using List.any_eq_false.mp hfalse x hx)
    simp [hnone, List.find?]

theorem bsdf_gen_outputs_fields (sock : Socket) :
    ∀ (props : List PropName) (st : ConverterState) (link : FragmentShaderLink)
      (acc : List String),
      (bsdf_gen_outputs sock props st link acc).1.local_code = st.local_code
      ∧ (bsdf_gen_outputs sock props st link acc).1.in_sockets_map = st.in_sockets_map
      ∧ (bsdf_gen_outputs sock props st link acc).1.out_sockets_map = st.out_sockets_map := by
  intro props
  induction props with
  | nil => intro st link acc; exact ⟨rfl, rfl, rfl⟩
  | cons p ps ih =>
      intro st link acc
      have step := ih (generate_shader_id_str st sock (PropName.str p)).2
        (link.set_property p (generate_shader_id_str st sock (PropName.str p)).1)
        (acc ++ [(generate_shader_id_str st sock (PropName.str p)).1])
      have hfields : (generate_shader_id_str st sock (PropName.str p)).2.local_code
            = st.local_code
          ∧ (generate_shader_id_str st sock (PropName.str p)).2.in_sockets_map
            = st.in_sockets_map
          ∧ (generate_shader_id_str st sock (PropName.str p)).2.out_sockets_map
            = st.out_sockets_map := by
        unfold generate_shader_id_str
        split <;> exact ⟨rfl, rfl, rfl⟩
      exact ⟨by rw [bsdf_gen_outputs, step.1, hfields.1],
        by rw [bsdf_gen_outputs, step.2.1, hfields.2.1],
        by rw [bsdf_gen_outputs, step.2.2, hfields.2.2]⟩

theorem conv_pair_code (st : ConverterState) (v : String) :
    (world_to_view (zup_to_yup st v) v).local_code =
      st.local_code ++ ["space_convert_zup_to_yup(" ++ v ++ ");",
        "dir_space_convert_world_to_view(" ++ v ++ ", INV_CAMERA_MATRIX);"] := by
  have hi2 : String.intercalate ", " [v, "INV_CAMERA_MATRIX"]
      = v ++ ", INV_CAMERA_MATRIX" := by
    rw [show String.intercalate ", " [v, "INV_CAMERA_MATRIX"]
        = (v ++ ", ") ++ "INV_CAMERA_MATRIX" from rfl, String.append_assoc]
    rfl
  unfold world_to_view zup_to_yup add_function_call
  rw [hi2, List.append_assoc]
  simp only [String.append_assoc]
  rfl

theorem conv_pair_in_map (st : ConverterState) (v : String) :
    (world_to_view (zup_to_yup st v) v).in_sockets_map = st.in_sockets_map := rfl

theorem bsdf_nt_step_some (st : ConverterState) (link : FragmentShaderLink)
    (pname : PropName) (socket : Socket) (v : String)
    (hv : (dictGet st.in_sockets_map socket.name).bind Binding.asVar = some v) :
    bsdf_nt_step st link pname (some socket) =
      some ((if socket.is_linked then world_to_view (zup_to_yup st v) v else st),
        link.set_property pname v) := by
  simp only [bsdf_nt_step]
  rw [hv]
  rfl

/-- C4 (amended): for a BSDF closure node carrying Normal and Tangent input
sockets whose bound variables are known, processing succeeds, the output
shader link binds exactly those variables on its normal and tangent
properties, and the emitted code is the function call followed by, for each
of the two sockets, the conversion from host z-up world space into the
target renderer's y-up view space (a `space_convert_zup_to_yup` call
followed by a `dir_space_convert_world_to_view` call on the bound variable)
exactly when that socket is linked, and no conversion when it is not. -/
theorem c4_normal_tangent_conversion_amended
    (st : ConverterState) (node : BlNode) (fn : FunctionDesc) (outS ns ts : Socket)
    (nv tv : String)
    (hout : node.outputs.head? = some outS)
    (hns : node.input_socket "Normal" = some ns)
    (hts : node.input_socket "Tangent" = some ts)
    (hnv : (dictGet st.in_sockets_map ns.name).bind Binding.asVar = some nv)
    (htv : (dictGet st.in_sockets_map ts.name).bind Binding.asVar = some tv)
    (hargs : ∃ args, resolve_in_args st.in_sockets_map node fn.in_sockets = some args) :
    ∃ (stF : ConverterState) (link : FragmentShaderLink) (callStmt : String),
      bsdf_parse st node fn = some stF
      ∧ stF.local_code = st.local_code ++ [callStmt]
          ++ (if ns.is_linked then
                ["space_convert_zup_to_yup(" ++ nv ++ ");",
                 "dir_space_convert_world_to_view(" ++ nv ++ ", INV_CAMERA_MATRIX);"]
              else [])
          ++ (if ts.is_linked then
                ["space_convert_zup_to_yup(" ++ tv ++ ");",
                 "dir_space_convert_world_to_view(" ++ tv ++ ", INV_CAMERA_MATRIX);"]
              else [])
      ∧ dictGet stF.out_sockets_map outS.name = some (.shader link)
      ∧ link.get_property FragmentShaderLink.NORMAL = some nv
      ∧ link.get_property FragmentShaderLink.TANGENT = some tv := by
  obtain ⟨args, hargs⟩ := hargs
  have hGf := bsdf_gen_outputs_fields outS fn.output_properties
    { st with flags := bsdf_flags_update st.flags node } {} []
  set G := bsdf_gen_outputs outS fn.output_properties
    { st with flags := bsdf_flags_update st.flags node } {} [] with hGdef
  set stc := add_function_call G.1 fn.name (args ++ G.2.2) with hstcdef
  have hcmap : stc.in_sockets_map = st.in_sockets_map := hGf.2.1
  have hccode : stc.local_code = st.local_code
      ++ [fn.name ++ "(" ++ String.intercalate ", " (args ++ G.2.2) ++ ");"] := by
    rw [hstcdef]
    unfold add_function_call
    rw [hGf.1]
  have hnv' : (dictGet stc.in_sockets_map ns.name).bind Binding.asVar = some nv := by
    rw [hcmap]; exact hnv
  set stA := (if ns.is_linked then world_to_view (zup_to_yup stc nv) nv else stc)
    with hstAdef
  have hAmap : stA.in_sockets_map = st.in_sockets_map := by
    rw [hstAdef]
    by_cases hl : ns.is_linked = true
    · rw [if_pos hl, conv_pair_in_map]
      exact hcmap
    · rw [if_neg hl]
      exact hcmap
  have hAcode : stA.local_code = st.local_code
      ++ [fn.name ++ "(" ++ String.intercalate ", " (args ++ G.2.2) ++ ");"]
      ++ (if ns.is_linked then
            ["space_convert_zup_to_yup(" ++ nv ++ ");",
             "dir_space_convert_world_to_view(" ++ nv ++ ", INV_CAMERA_MATRIX);"]
          else []) := by
    rw [hstAdef]
    by_cases hl : ns.is_linked = true
    · simp only [if_pos hl]
      rw [conv_pair_code, hccode]
    · simp only [if_neg hl]
      rw [hccode, List.append_nil]
  have htv' : (dictGet stA.in_sockets_map ts.name).bind Binding.asVar = some tv := by
    rw [hAmap]; exact htv
  set stB := (if ts.is_linked then world_to_view (zup_to_yup stA tv) tv else stA)
    with hstBdef
  have hBcode : stB.local_code = st.local_code
      ++ [fn.name ++ "(" ++ String.intercalate ", " (args ++ G.2.2) ++ ");"]
      ++ (if ns.is_linked then
            ["space_convert_zup_to_yup(" ++ nv ++ ");",
             "dir_space_convert_world_to_view(" ++ nv ++ ", INV_CAMERA_MATRIX);"]
          else [])
      ++ (if ts.is_linked then
            ["space_convert_zup_to_yup(" ++ tv ++ ");",
             "dir_space_convert_world_to_view(" ++ tv ++ ", INV_CAMERA_MATRIX);"]
          else []) := by
    rw [hstBdef]
    by_cases hl : ts.is_linked = true
    · simp only [if_pos hl]
      rw [conv_pair_code, hAcode]
    · simp only [if_neg hl]
      rw [hAcode, List.append_nil]
  have hrun : bsdf_parse st node fn = some
      { stB with out_sockets_map := (dictSet stB.out_sockets_map outS.name
          (.shader ((G.2.1.set_property FragmentShaderLink.NORMAL nv).set_property
            FragmentShaderLink.TANGENT tv))) } := by
    unfold bsdf_parse
    rw [hout]
    simp only [Option.bind_eq_bind, Option.some_bind,
      show ({ st with flags := bsdf_flags_update st.flags node } :
        ConverterState).in_sockets_map = st.in_sockets_map from rfl, hargs, hns, hts]
    rw [← hGdef, ← hstcdef,
      bsdf_nt_step_some stc G.2.1 FragmentShaderLink.NORMAL ns nv hnv']
    simp only [Option.bind_eq_bind, Option.some_bind]
    rw [← hstAdef,
      bsdf_nt_step_some stA (G.2.1.set_property FragmentShaderLink.NORMAL nv)
        FragmentShaderLink.TANGENT ts tv htv']
    simp only [Option.bind_eq_bind, Option.some_bind]
    rw [← hstBdef]
    rfl
  refine ⟨_, ((G.2.1.set_property FragmentShaderLink.NORMAL nv).set_property
      FragmentShaderLink.TANGENT tv),
    fn.name ++ "(" ++ String.intercalate ", " (args ++ G.2.2) ++ ");",
    hrun, ?_, ?_, ?_, ?_⟩
  · exact hBcode
  · exact dictGet_set_self _ _ _
  · rw [get_set_ne _ _ (by decide), get_set_self]
  · exact get_set_self _ _ _

/-- A diffuse closure node with a linked Normal input and no Tangent
input. -/
def c4_node : BlNode :=
  { bl_idname := "ShaderNodeBsdfDiffuse"
    name := "Diffuse BSDF"
    inputs := [{ name := "Normal", type := .VECTOR, is_linked := true }]
    outputs := [{ name := "BSDF", type := .SHADER, identifier := "BSDF", is_output := true }] }

/-- The registry descriptor of the diffuse closure function. -/
def c4_fn : FunctionDesc :=
  { name := "node_bsdf_diffuse", output_properties := [.albedo] }

/-- A converter state whose input map binds the Normal socket. -/
def c4_state : ConverterState :=
  { init_converter 0 with in_sockets_map := [("Normal", .var "node0_in0_normal")] }

/-- C4 (counterexample): on a closure node with a linked Normal input, the
emitted code applies `space_convert_zup_to_yup` followed by
`dir_space_convert_world_to_view` to the bound normal variable — the
conversion from host z-up world space into renderer view space — and does
not contain the `space_convert_yup_to_zup` or
`dir_space_convert_view_to_model` calls that a conversion from renderer
view space into host z-up model space would be, refuting the claimed
direction at this input. -/
theorem c4_normal_direction_counterexample :
    ((c4_node.input_socket "Normal").map Socket.is_linked).getD false = true
    ∧ (bsdf_parse c4_state c4_node c4_fn).isSome = true
    ∧ "space_convert_zup_to_yup(node0_in0_normal);"
        ∈ ((bsdf_parse c4_state c4_node c4_fn).getD (init_converter 0)).local_code
    ∧ "dir_space_convert_world_to_view(node0_in0_normal, INV_CAMERA_MATRIX);"
        ∈ ((bsdf_parse c4_state c4_node c4_fn).getD (init_converter 0)).local_code
    ∧ "space_convert_yup_to_zup(node0_in0_normal);"
        ∉ ((bsdf_parse c4_state c4_node c4_fn).getD (init_converter 0)).local_code
    ∧ "dir_space_convert_view_to_model(node0_in0_normal, INV_MODEL_MAT, INV_VIEW_MAT);"
        ∉ ((bsdf_parse c4_state c4_node c4_fn).getD (init_converter 0)).local_code := by
  decide

/-- The output socket of the witness closure node. -/
def c4w_outS : Socket :=
  { name := "BSDF", type := .SHADER, identifier := "BSDF", is_output := true }

/-- The linked Normal input socket of the witness closure node. -/
def c4w_ns : Socket := { name := "Normal", type := .VECTOR, is_linked := true }

/-- The unlinked Tangent input socket of the witness closure node. -/
def c4w_ts : Socket := { name := "Tangent", type := .VECTOR }

/-- A principled closure node with a linked Normal input and an unlinked
Tangent input. -/
def c4w_node : BlNode :=
  { bl_idname := "ShaderNodeBsdfPrincipled"
    name := "Principled BSDF"
    inputs := [c4w_ns, c4w_ts]
    outputs := [c4w_outS] }

/-- A converter state binding both witness input sockets. -/
def c4w_state : ConverterState :=
  { init_converter 2 with in_sockets_map :=
      [("Normal", .var "node2_in0_normal"), ("Tangent", .var "node2_in1_tangent")] }

theorem c4_amended_witness :
    ∃ (stF : ConverterState) (link : FragmentShaderLink) (callStmt : String),
      bsdf_parse c4w_state c4w_node c4_fn = some stF
      ∧ stF.local_code = c4w_state.local_code ++ [callStmt]
          ++ ["space_convert_zup_to_yup(node2_in0_normal);",
              "dir_space_convert_world_to_view(node2_in0_normal, INV_CAMERA_MATRIX);"]
          ++ []
      ∧ dictGet stF.out_sockets_map "BSDF" = some (.shader link)
      ∧ link.get_property FragmentShaderLink.NORMAL = some "node2_in0_normal"
      ∧ link.get_property FragmentShaderLink.TANGENT = some "node2_in1_tangent" :=
  c4_normal_tangent_conversion_amended c4w_state c4w_node c4_fn c4w_outS c4w_ns c4w_ts
    "node2_in0_normal" "node2_in1_tangent" rfl rfl rfl rfl rfl ⟨[], rfl⟩

/-- The producer side of a link as seen by a consumer: the producing node's
name (for diagnostics), the validity of its converter, the type of the
producing socket, and the binding registered for that socket in the
producer's output map (none when the entry is missing). -/
structure UpstreamLink where
  from_node_name : String
  from_valid : Bool
  from_socket_type : SocketType
  from_binding : Option Binding
deriving DecidableEq

/-- The warning logged when a linked producer is an unsupported node. -/
def warn_unsupported (node_name socket_name : String) : String :=
  "input node '" ++ node_name ++ "' not supported,use default value for socket '"
    ++ socket_name ++ "'"

/-- The default literal of an input socket: the NORMAL and TANGENT
built-ins for sockets of those names, the socket's literal default value
otherwise. -/
def default_value_str (socket : Socket) : String :=
  if socket.name = "Normal" then "NORMAL"
  else if socket.name = "Tangent" then "TANGENT"
  else blender_value_to_string socket.default_value

/-- `_initialize_value_in_socket`: bind a fresh identifier for a non-shader
input socket; a linked socket with a valid producer receives a type-coerced
assignment from the producer's binding, a linked socket with an invalid
producer logs a warning and falls back to the default literal, an unlinked
socket takes the default literal. -/
def initialize_value_in_socket (st : ConverterState) (socket : Socket)
    (up : Option UpstreamLink) : Option ConverterState := do
  let type_str ← socket_to_type_string socket.type
  let gen := generate_socket_id_str st socket
  let id_str := gen.1
  let st := { gen.2 with
    in_sockets_map := dictSet gen.2.in_sockets_map socket.name (.var id_str),
    defined_ids := idInsert gen.2.defined_ids id_str }
  if socket.is_linked then do
    let u ← up
    if u.from_valid = false then
      let st := { st with
        warnings := st.warnings ++ [warn_unsupported u.from_node_name socket.name] }
      pure { st with input_definitions := st.input_definitions
        ++ [type_str ++ " " ++ id_str ++ " = " ++ default_value_str socket] }
    else do
      let from_id ← u.from_binding.bind Binding.asVar
      let assign ← generate_socket_assignment id_str socket.type from_id u.from_socket_type
      pure { st with input_definitions := st.input_definitions
        ++ [type_str ++ " " ++ assign] }
  else
    pure { st with input_definitions := st.input_definitions
      ++ [type_str ++ " " ++ id_str ++ " = " ++ default_value_str socket] }

/-- The closing property loop of `_initialize_shader_in_socket`: re-bind
every bound property of the incoming shader link to a local identifier and
declare it. -/
def shader_prop_fold (socket : Socket) :
    List PropName → ConverterState → FragmentShaderLink →
    ConverterState × FragmentShaderLink
  | [], st, link => (st, link)
  | p :: ps, st, link =>
      match link.get_property p with
      | some from_id =>
          let gen := generate_shader_id_str st socket (PropName.str p)
          let st := { gen.2 with
            defined_ids := idInsert gen.2.defined_ids gen.1,
            input_definitions := gen.2.input_definitions
              ++ [FragmentShaderLink.get_property_type p ++ " " ++ gen.1 ++ " = " ++ from_id] }
          shader_prop_fold socket ps st (link.set_property p gen.1)
      | none => shader_prop_fold socket ps st link

/-- `_initialize_shader_in_socket`: adopt the upstream shader link when the
socket is linked to a valid shader-producing converter, else synthesize a
default link exposing only a black albedo; then localize every bound
property. -/
def initialize_shader_in_socket (st : ConverterState) (socket : Socket)
    (up : Option UpstreamLink) : Option ConverterState := do
  let adopted ←
    if socket.is_linked then do
      let u ← up
      if u.from_socket_type = .SHADER ∧ u.from_valid then do
        let b ← u.from_binding
        let l ← b.asShader
        pure (some l)
      else pure none
    else pure (none : Option FragmentShaderLink)
  match adopted with
  | some l =>
      let r := shader_prop_fold socket FragmentShaderLink.ALL_PROPERTIES st l
      pure { r.1 with
        in_sockets_map := dictSet r.1.in_sockets_map socket.name (.shader r.2) }
  | none =>
      let gen := generate_shader_id_str st socket
        (PropName.str FragmentShaderLink.ALBEDO)
      let st := { gen.2 with input_definitions := gen.2.input_definitions
        ++ ["vec3 " ++ gen.1 ++ " = vec3(0.0, 0.0, 0.0)"] }
      let link : FragmentShaderLink := { albedo := some gen.1 }
      let r := shader_prop_fold socket FragmentShaderLink.ALL_PROPERTIES st link
      pure { r.1 with
        in_sockets_map := dictSet r.1.in_sockets_map socket.name (.shader r.2) }

/-- `initialize_inputs`: initialize every input socket of the node, from
its link when present or its default, dispatching per socket type. -/
def initialize_inputs (st : ConverterState) :
    List (Socket × Option UpstreamLink) → Option ConverterState
  | [] => some st
  | (socket, up) :: rest => do
      let st' ←
        if socket.type ≠ .SHADER then initialize_value_in_socket st socket up
        else initialize_shader_in_socket st socket up
      initialize_inputs st' rest

/-- C6: a non-shader input socket linked to an unsupported (invalid)
producer is initialized without failure: it is bound to a fresh identifier
declared with the socket's default literal (the NORMAL/TANGENT built-in for
sockets of those names, per `default_value_str`), and exactly one warning
naming the producing node and the socket is appended. -/
theorem c6_invalid_upstream_fallback
    (st : ConverterState) (socket : Socket) (u : UpstreamLink) (tstr : String)
    (hty : socket_to_type_string socket.type = some tstr)
    (hlink : socket.is_linked = true)
    (hinvalid : u.from_valid = false) :
    ∃ (stF : ConverterState) (id_str : String),
      initialize_value_in_socket st socket (some u) = some stF
      ∧ stF.warnings = st.warnings ++ [warn_unsupported u.from_node_name socket.name]
      ∧ stF.input_definitions = st.input_definitions
          ++ [tstr ++ " " ++ id_str ++ " = " ++ default_value_str socket]
      ∧ dictGet stF.in_sockets_map socket.name = some (.var id_str)
      ∧ (socket.name = "Normal" → default_value_str socket = "NORMAL")
      ∧ (socket.name = "Tangent" → default_value_str socket = "TANGENT")
      ∧ (socket.name ≠ "Normal" → socket.name ≠ "Tangent" →
          default_value_str socket = blender_value_to_string socket.default_value) := by
  have hpres : (generate_socket_id_str st socket).2.warnings = st.warnings
      ∧ (generate_socket_id_str st socket).2.input_definitions = st.input_definitions := by
    unfold generate_socket_id_str
    split <;> exact ⟨rfl, rfl⟩
  set g := generate_socket_id_str st socket with hg
  set st1 : ConverterState := { g.2 with
    in_sockets_map := dictSet g.2.in_sockets_map socket.name (.var g.1),
    defined_ids := idInsert g.2.defined_ids g.1 } with hst1
  have hrun : initialize_value_in_socket st socket (some u) = some
      { st1 with
        warnings := st1.warnings ++ [warn_unsupported u.from_node_name socket.name],
        input_definitions := st1.input_definitions
          ++ [tstr ++ " " ++ g.1 ++ " = " ++ default_value_str socket] } := by
    unfold initialize_value_in_socket
    rw [hty]
    simp only [Option.bind_eq_bind, Option.some_bind, hlink, hinvalid,
      eq_self_iff_true, if_true]
    rfl
  refine ⟨_, g.1, hrun, ?_, ?_, ?_, ?_, ?_, ?_⟩
  · show st1.warnings ++ [warn_unsupported u.from_node_name socket.name]
      = st.warnings ++ [warn_unsupported u.from_node_name socket.name]
    rw [show st1.warnings = (generate_socket_id_str st socket).2.warnings from rfl,
      hpres.1]
  · show st1.input_definitions ++ [tstr ++ " " ++ g.1 ++ " = " ++ default_value_str socket]
      = st.input_definitions ++ [tstr ++ " " ++ g.1 ++ " = " ++ default_value_str socket]
    rw [show st1.input_definitions
        = (generate_socket_id_str st socket).2.input_definitions from rfl, hpres.2]
  · exact dictGet_set_self _ _ _
  · intro h; simp [default_value_str, h]
  · intro h
    unfold default_value_str
    rw [if_neg (by simp [h]), if_pos h]
  · intro h1 h2
    unfold default_value_str
    rw [if_neg h1, if_neg h2]

theorem digitChar_isDigit (d : Nat) (h : d < 10) : (digitChar d).isDigit = true := by
  interval_cases d <;> decide

theorem digitChar_toNat (d : Nat) (h : d < 10) : (digitChar d).toNat = 48 + d := by
  interval_cases d <;> decide

theorem natDigitsAux_digits :
    ∀ fuel n, ∀ c ∈ natDigitsAux fuel n, c.isDigit = true := by
  intro fuel
  induction fuel with
  | zero => intro n c hc; simp [natDigitsAux] at hc
  | succ fuel ih =>
      intro n c hc
      unfold natDigitsAux at hc
      by_cases h : n < 10
      · rw [if_pos h] at hc
        simp at hc
        subst hc
        exact digitChar_isDigit n h
      · rw [if_neg h] at hc
        rcases List.mem_append.mp hc with h1 | h1
        · exact ih _ c h1
        · simp at h1
          subst h1
          exact digitChar_isDigit _ (Nat.mod_lt _ (by omega))

/-- The value of a decimal digit list, used to invert the rendering. -/
def digitsVal (l : List Char) : Nat :=
  l.foldl (fun a c => a * 10 + (c.toNat - 48)) 0

theorem digitsVal_append_singleton (l : List Char) (c : Char) :
    digitsVal (l ++ [c]) = digitsVal l * 10 + (c.toNat - 48) := by
  unfold digitsVal
  rw [List.foldl_append]
  rfl

theorem digitsVal_natDigitsAux :
    ∀ fuel n, n < fuel → digitsVal (natDigitsAux fuel n) = n := by
  intro fuel
  induction fuel with
  | zero => intro n h; omega
  | succ fuel ih =>
      intro n h
      unfold natDigitsAux
      by_cases h10 : n < 10
      · rw [if_pos h10]
        show 0 * 10 + ((digitChar n).toNat - 48) = n
        rw [digitChar_toNat n h10]
        omega
      · rw [if_neg h10]
        have hdiv : n / 10 < fuel := by
          have hlt : n / 10 < n := Nat.div_lt_self (by omega) (by omega)
          omega
        rw [digitsVal_append_singleton, ih (n / 10) hdiv,
          digitChar_toNat _ (Nat.mod_lt _ (by omega))]
        omega

theorem natStr_inj {m n : Nat} (h : natStr m = natStr n) : m = n := by
  have hm := digitsVal_natDigitsAux (m + 1) m (by omega)
  have hn := digitsVal_natDigitsAux (n + 1) n (by omega)
  have hdata : natDigitsAux (m + 1) m = natDigitsAux (n + 1) n := congrArg String.data h
  rw [hdata] at hm
  omega

theorem digit_underscore_split :
    ∀ (d1 d2 r1 r2 : List Char),
      (∀ c ∈ d1, c.isDigit = true) → (∀ c ∈ d2, c.isDigit = true) →
      d1 ++ '_' :: r1 = d2 ++ '_' :: r2 → d1 = d2 ∧ r1 = r2 := by
  intro d1
  induction d1 with
  | nil =>
      intro d2 r1 r2 _ hd2 heq
      cases d2 with
      | nil => simpa using heq
      | cons b bs =>
          simp only [List.nil_append, List.cons_append, List.cons.injEq] at heq
          have hb := hd2 b (List.mem_cons_self b bs)
          rw [← heq.1] at hb
          simp at hb
  | cons a as ih =>
      intro d2 r1 r2 hd1 hd2 heq
      cases d2 with
      | nil =>
          simp only [List.cons_append, List.nil_append, List.cons.injEq] at heq
          have ha := hd1 a (List.mem_cons_self a as)
          rw [heq.1] at ha
          simp at ha
      | cons b bs =>
          simp only [List.cons_append, List.cons.injEq] at heq
          obtain ⟨hab, htail⟩ := heq
          obtain ⟨h1, h2⟩ := ih bs r1 r2
            (fun c hc => hd1 c (List.mem_cons_of_mem a hc))
            (fun c hc => hd2 c (List.mem_cons_of_mem b hc)) htail
          exact ⟨by rw [hab, h1], h2⟩

theorem seg_underscore_inj (p : List Char) (k l : Nat) (s t : List Char)
    (h : ((p ++ (natStr k).data) ++ ['_']) ++ s = ((p ++ (natStr l).data) ++ ['_']) ++ t) :
    k = l ∧ s = t := by
  simp only [List.append_assoc] at h
  have h2 : (natStr k).data ++ ('_' :: s) = (natStr l).data ++ ('_' :: t) :=
    List.append_cancel_left h
  obtain ⟨h3, h4⟩ := digit_underscore_split _ _ _ _
    (natDigitsAux_digits _ _) (natDigitsAux_digits _ _) h2
  exact ⟨natStr_inj (congrArg String.mk h3), by simpa using h4⟩

/-- C5 (amended): identifiers generated by converters at different
processing positions never collide, whatever comes after the node prefix;
and within one converter two identifiers made by the same counter family
with different counter values never collide, for sockets of the same
direction and for scratch variables.  (Identifiers of different families of
one converter can collide when a sanitized socket name embeds a counter
pattern, as the counterexample shows, so uniqueness across families is not
claimed.) -/
theorem c5_identifier_distinctness_amended :
    (∀ (i j : Nat) (s t : String), i ≠ j →
      (init_converter i).idPref ++ s ≠ (init_converter j).idPref ++ t)
    ∧ (∀ (st st' : ConverterState) (a b : Socket),
        st.idPref = st'.idPref → a.is_output = false → b.is_output = false →
        st.input_var_count ≠ st'.input_var_count →
        (generate_socket_id_str st a).1 ≠ (generate_socket_id_str st' b).1)
    ∧ (∀ (st st' : ConverterState) (a b : Socket),
        st.idPref = st'.idPref → a.is_output = true → b.is_output = true →
        st.output_var_count ≠ st'.output_var_count →
        (generate_socket_id_str st a).1 ≠ (generate_socket_id_str st' b).1)
    ∧ (∀ (st st' : ConverterState) (h1 h2 : String),
        st.idPref = st'.idPref → st.variable_count ≠ st'.variable_count →
        (generate_variable_id_str st h1).1 ≠ (generate_variable_id_str st' h2).1) := by
  refine ⟨?_, ?_, ?_, ?_⟩
  · intro i j s t hij heq
    have hd := congrArg String.data heq
    exact hij (seg_underscore_inj "node".data i j s.data t.data hd).1
  · intro st st' a b hpref ha hb hcnt heq
    apply hcnt
    rw [generate_socket_id_str, generate_socket_id_str, ha, hb] at heq
    simp only [Bool.false_eq_true, if_false, hpref] at heq
    have hd := congrArg String.data heq
    exact (seg_underscore_inj (st'.idPref.data ++ "in".data)
      st.input_var_count st'.input_var_count
      (filter_id_illegal_char a.name).data (filter_id_illegal_char b.name).data hd).1
  · intro st st' a b hpref ha hb hcnt heq
    apply hcnt
    rw [generate_socket_id_str, generate_socket_id_str, ha, hb] at heq
    simp only [if_true, hpref] at heq
    have hd := congrArg String.data heq
    exact (seg_underscore_inj (st'.idPref.data ++ "out".data)
      st.output_var_count st'.output_var_count
      (filter_id_illegal_char a.name).data (filter_id_illegal_char b.name).data hd).1
  · intro st st' h1 h2 hpref hcnt heq
    apply hcnt
    rw [generate_variable_id_str, generate_variable_id_str, hpref] at heq
    have hd := congrArg String.data heq
    exact (seg_underscore_inj (st'.idPref.data ++ "var".data)
      st.variable_count st'.variable_count
      (filter_id_illegal_char h1).data (filter_id_illegal_char h2).data hd).1

theorem c5_amended_witness :
    (0 : Nat) ≠ 1 ∧ (init_converter 0).idPref ++ "x" ≠ (init_converter 1).idPref ++ "x" :=
  ⟨by decide, c5_identifier_distinctness_amended.1 0 1 "x" "x" (by decide)⟩

/-- The inputs of an unsupported node whose sanitized socket names embed a
counter pattern: a VALUE socket named in1_albedo followed by a SHADER
socket named In0, both unlinked. -/
def c5_inputs : List (Socket × Option UpstreamLink) :=
  [({ name := "in1_albedo", type := .VALUE, default_value := .float "0.5" }, none),
   ({ name := "In0", type := .SHADER }, none)]

/-- The identifier a declaration line declares: its second blank-separated
word. -/
def declared_identifier (line : String) : String :=
  String.mk (((line.data.dropWhile (fun c => c ≠ ' ')).drop 1).takeWhile (fun c => c ≠ ' '))

/-- C5 (counterexample): initializing the inputs of a node carrying the
sockets of `c5_inputs` emits the identifier node0_in0_in1_albedo in two
distinct declarations (once as the VALUE socket's variable, once as the
synthesized shader-link albedo), so the multiset of declaration identifiers
of a processed graph can contain a duplicate. -/
theorem c5_duplicate_declaration_counterexample :
    (initialize_inputs (init_converter 0) c5_inputs).isSome = true
    ∧ ((initialize_inputs (init_converter 0) c5_inputs).getD
        (init_converter 0)).input_definitions =
      ["// input sockets handling",
       "float node0_in0_in1_albedo = float(0.5)",
       "vec3 node0_in0_in1_albedo = vec3(0.0, 0.0, 0.0)",
       "vec3 node0_in0_in2_albedo = node0_in0_in1_albedo"]
    ∧ (((initialize_inputs (init_converter 0) c5_inputs).getD
        (init_converter 0)).input_definitions.map declared_identifier).count
        "node0_in0_in1_albedo" = 2 := by
  refine ⟨rfl, rfl, by decide⟩

/-- A linked color input whose producer is unsupported. -/
def c6w_socket : Socket :=
  { name := "Color", type := .RGBA, is_linked := true,
    default_value := .vec ["0.8", "0.8", "0.8", "1.0"] }

/-- The invalid producer seen through the link. -/
def c6w_up : UpstreamLink :=
  { from_node_name := "Unsupported Group Node", from_valid := false,
    from_socket_type := .RGBA, from_binding := none }

theorem c6_witness :
    socket_to_type_string c6w_socket.type = some "vec4"
    ∧ c6w_socket.is_linked = true
    ∧ c6w_up.from_valid = false
    ∧ (∃ (stF : ConverterState) (id_str : String),
        initialize_value_in_socket (init_converter 3) c6w_socket (some c6w_up) = some stF
        ∧ stF.warnings = (init_converter 3).warnings
            ++ [warn_unsupported c6w_up.from_node_name c6w_socket.name]
        ∧ stF.input_definitions = (init_converter 3).input_definitions
            ++ ["vec4" ++ " " ++ id_str ++ " = " ++ default_value_str c6w_socket]
        ∧ dictGet stF.in_sockets_map c6w_socket.name = some (.var id_str)
        ∧ (c6w_socket.name = "Normal" → default_value_str c6w_socket = "NORMAL")
        ∧ (c6w_socket.name = "Tangent" → default_value_str c6w_socket = "TANGENT")
        ∧ (c6w_socket.name ≠ "Normal" → c6w_socket.name ≠ "Tangent" →
            default_value_str c6w_socket
              = blender_value_to_string c6w_socket.default_value)) :=
  ⟨rfl, rfl, rfl,
    c6_invalid_upstream_fallback (init_converter 3) c6w_socket c6w_up "vec4" rfl rfl rfl⟩

/-- A node of the read-only link graph used for texture classification. -/
structure GraphNode where
  name : String
  bl_idname : String
deriving DecidableEq

/-- A directed link of the read-only graph, carrying the producing node and
socket and the consuming node and socket. -/
structure GraphLink where
  from_node : String
  from_socket : String
  to_node : String
  to_socket : String
deriving DecidableEq

/-- The read-only node graph traversed by the texture classifiers. -/
structure NodeGraph where
  nodes : List GraphNode
  links : List GraphLink
deriving DecidableEq

/-- The kind identifier of a node of the graph, empty when absent. -/
def NodeGraph.idname_of (g : NodeGraph) (n : String) : String :=
  ((g.nodes.find? (fun x => x.name = n)).map (fun x => x.bl_idname)).getD ""

/-- The outgoing links of a node, over all of its output sockets. -/
def out_links (g : NodeGraph) (n : String) : List GraphLink :=
  g.links.filter (fun l => l.from_node = n)

/-- The target test of `is_albedo_texture`: a Base Color socket of a
principled BSDF or a Color socket of a diffuse BSDF. -/
def albedo_target (g : NodeGraph) (node socket : String) : Bool :=
  (socket = "Base Color" ∧ g.idname_of node = "ShaderNodeBsdfPrincipled")
  ∨ (socket = "Color" ∧ g.idname_of node = "ShaderNodeBsdfDiffuse")

/-- The target test of `is_normal_texture`: a Color socket of a normal-map
node. -/
def normal_target (g : NodeGraph) (node socket : String) : Bool :=
  socket = "Color" ∧ g.idname_of node = "ShaderNodeNormalMap"

/-- The breadth-first queue walk shared by the two texture classifiers: pop
a node/socket pair, test it, and enqueue every consumer reachable over the
node's outgoing links.  The source loop keeps no visited set, so the model
is fuelled; `none` is an exhausted fuel budget. -/
def bfs_search (g : NodeGraph) (target : NodeGraph → String → String → Bool) :
    Nat → List (String × String) → Option Bool
  | _, [] => some false
  | 0, _ :: _ => none
  | fuel + 1, (n, s) :: rest =>
      if target g n s then some true
      else bfs_search g target fuel
        (rest ++ (out_links g n).map (fun l => (l.to_node, l.to_socket)))

/-- The initial queue of the classifiers: the links of the Color output of
the sampling node. -/
def color_out_queue (g : NodeGraph) (tex : String) : List (String × String) :=
  (g.links.filter (fun l => l.from_node = tex ∧ l.from_socket = "Color")).map
    (fun l => (l.to_node, l.to_socket))

/-- `is_albedo_texture` (fuelled): the opening assert on the node kind is
modelled as `none`. -/
def is_albedo_texture (g : NodeGraph) (tex : String) (fuel : Nat) : Option Bool :=
  if g.idname_of tex ≠ "ShaderNodeTexImage" then none
  else bfs_search g albedo_target fuel (color_out_queue g tex)

/-- `is_normal_texture` (fuelled). -/
def is_normal_texture (g : NodeGraph) (tex : String) (fuel : Nat) : Option Bool :=
  if g.idname_of tex ≠ "ShaderNodeTexImage" then none
  else bfs_search g normal_target fuel (color_out_queue g tex)

/-- The hint selection of `ImageTextureNodeConverter.parse_node_to_fragment`:
normal first, else albedo, else none. -/
def texture_hint (g : NodeGraph) (tex : String) (fuel : Nat) : Option Hint := do
  let nb ← is_normal_texture g tex fuel
  if nb then pure .NORMAL
  else do
    let ab ← is_albedo_texture g tex fuel
    if ab then pure .ALBEDO else pure .NONE

/-- The loop of `ImageTextureNodeConverter.parse_node_to_fragment` binding
every output socket to a fresh identifier and collecting the call's output
arguments. -/
def imagetex_outputs :
    List Socket → ConverterState → List String → ConverterState × List String
  | [], st, acc => (st, acc)
  | s :: rest, st, acc =>
      let gen := generate_socket_id_str st s
      imagetex_outputs rest
        { gen.2 with out_sockets_map := dictSet gen.2.out_sockets_map s.name (.var gen.1) }
        (acc ++ [gen.1])

/-- `ImageTextureNodeConverter.parse_node_to_fragment`: default the texture
coordinate to the surface UV when unlinked, classify the texture by forward
tracing, register exactly one texture binding, and invoke the sampling
function binding every output. -/
def imagetex_parse (st : ConverterState) (node : BlNode) (g : NodeGraph)
    (fuel : Nat) (texhash : Nat) (fn : FunctionDesc) : Option ConverterState := do
  let tex_coord_socket ← node.inputs.head?
  let tex_coord ← (dictGet st.in_sockets_map tex_coord_socket.name).bind Binding.asVar
  let st :=
    if tex_coord_socket.is_linked = false then
      { st with local_code := st.local_code ++ [tex_coord ++ " = vec3(UV, 0.0)"] }
    else st
  let tex_var := generate_tmp_texture_id st texhash
  let hint ← texture_hint g node.name fuel
  let st := { st with textures := st.textures
    ++ [{ image := node.image, tmp_identifier := tex_var, hint := hint }] }
  let r := imagetex_outputs node.outputs st []
  pure (add_function_call r.1 fn.name ([tex_coord, tex_var] ++ r.2))

/-- A graph in which the sampling texture feeds both a principled BSDF's
Base Color input and a normal-map node's Color input. -/
def c7_graph : NodeGraph :=
  { nodes := [⟨"Tex", "ShaderNodeTexImage"⟩,
      ⟨"Principled", "ShaderNodeBsdfPrincipled"⟩,
      ⟨"NMap", "ShaderNodeNormalMap"⟩]
    links := [⟨"Tex", "Color", "Principled", "Base Color"⟩,
      ⟨"Tex", "Color", "NMap", "Color"⟩] }

/-- C7 (counterexample): in `c7_graph` the Color output reaches a
principled BSDF's Base Color socket, yet the registered hint is NORMAL and
not ALBEDO — the normal-map classification takes precedence, so the claim's
albedo case is violated when both targets are reachable. -/
theorem c7_hint_precedence_counterexample :
    is_albedo_texture c7_graph "Tex" 9 = some true
    ∧ is_normal_texture c7_graph "Tex" 9 = some true
    ∧ texture_hint c7_graph "Tex" 9 = some Hint.NORMAL
    ∧ Hint.NORMAL ≠ Hint.ALBEDO := by
  refine ⟨rfl, rfl, rfl, by decide⟩

theorem imagetex_outputs_textures :
    ∀ (outs : List Socket) (st : ConverterState) (acc : List String),
      (imagetex_outputs outs st acc).1.textures = st.textures := by
  intro outs
  induction outs with
  | nil => intro st acc; rfl
  | cons s rest ih =>
      intro st acc
      unfold imagetex_outputs
      rw [ih]
      show ({ (generate_socket_id_str st s).2 with
        out_sockets_map := dictSet (generate_socket_id_str st s).2.out_sockets_map
          s.name (.var (generate_socket_id_str st s).1) } : ConverterState).textures
        = st.textures
      unfold generate_socket_id_str
      split <;> rfl

/-- C7 (amended): the texture classification applies the normal test first:
whenever the hint computation completes, the hint is NORMAL exactly when
the forward trace reaches a normal-map Color socket, ALBEDO exactly when it
does not but reaches a principled Base Color or diffuse Color socket, and
NONE exactly when it reaches neither; and any completed run of the sampling
converter registers exactly one texture binding. -/
theorem c7_texture_hint_amended (g : NodeGraph) (tex : String) (fuel : Nat) :
    (∀ h : Hint, texture_hint g tex fuel = some h →
      ((h = .NORMAL ↔ is_normal_texture g tex fuel = some true)
      ∧ (h = .ALBEDO ↔ (is_normal_texture g tex fuel = some false
          ∧ is_albedo_texture g tex fuel = some true))
      ∧ (h = .NONE ↔ (is_normal_texture g tex fuel = some false
          ∧ is_albedo_texture g tex fuel = some false))))
    ∧ (∀ (st : ConverterState) (node : BlNode) (texhash : Nat) (fn : FunctionDesc)
        (stF : ConverterState),
        imagetex_parse st node g fuel texhash fn = some stF →
        stF.textures.length = st.textures.length + 1) := by
  constructor
  · intro h hh
    unfold texture_hint at hh
    rcases hn : is_normal_texture g tex fuel with _ | nb <;> rw [hn] at hh
    · simp at hh
    · simp only [Option.bind_eq_bind, Option.some_bind] at hh
      cases nb
      · rcases ha : is_albedo_texture g tex fuel with _ | ab <;> rw [ha] at hh
        · simp at hh
        · simp only [Bool.false_eq_true, if_false, Option.bind_eq_bind,
            Option.some_bind] at hh
          cases ab
          · simp only [Bool.false_eq_true, if_false] at hh
            have hh2 : Hint.NONE = h := by simpa using hh
            subst hh2
            exact ⟨by simp [hn], by simp [ha], by simp [hn, ha]⟩
          · simp only [if_true] at hh
            have hh2 : Hint.ALBEDO = h := by simpa using hh
            subst hh2
            exact ⟨by simp [hn], by simp [hn, ha], by simp [ha]⟩
      · simp only [if_true] at hh
        have hh2 : Hint.NORMAL = h := by simpa using hh
        subst hh2
        exact ⟨by simp [hn], by simp [hn], by simp [hn]⟩
  · intro st node texhash fn stF hp
    unfold imagetex_parse at hp
    rcases hh : node.inputs.head? with _ | tcs <;> rw [hh] at hp
    · simp at hp
    · simp only [Option.bind_eq_bind, Option.some_bind] at hp
      rcases hv : (dictGet st.in_sockets_map tcs.name).bind Binding.asVar
          with _ | tc <;> rw [hv] at hp
      · simp at hp
      · simp only [Option.bind_eq_bind, Option.some_bind] at hp
        rcases hhint : texture_hint g node.name fuel with _ | hint <;>
          rw [hhint] at hp
        · simp at hp
        · simp only [Option.bind_eq_bind, Option.some_bind] at hp
          have hs := Option.some.inj hp
          subst hs
          show (imagetex_outputs node.outputs _ []).1.textures.length
            = st.textures.length + 1
          rw [imagetex_outputs_textures]
          have h2 : (if tcs.is_linked = false then
              { st with local_code := st.local_code ++ [tc ++ " = vec3(UV, 0.0)"] }
            else st).textures = st.textures := by
            split <;> rfl
          show ((if tcs.is_linked = false then
              { st with local_code := st.local_code ++ [tc ++ " = vec3(UV, 0.0)"] }
            else st).textures ++ [_]).length = st.textures.length + 1
          rw [h2]
          simp

/-- A graph in which the sampling texture feeds only a principled BSDF. -/
def c7w_graph : NodeGraph :=
  { nodes := [⟨"Tex", "ShaderNodeTexImage"⟩, ⟨"P", "ShaderNodeBsdfPrincipled"⟩]
    links := [⟨"Tex", "Color", "P", "Base Color"⟩] }

/-- The sampling node of the witness graph. -/
def c7w_node : BlNode :=
  { bl_idname := "ShaderNodeTexImage"
    name := "Tex"
    inputs := [{ name := "Vector", type := .VECTOR }]
    outputs := [{ name := "Color", type := .RGBA, is_output := true },
      { name := "Alpha", type := .VALUE, is_output := true }]
    image := some "image.png" }

/-- The registry descriptor of the sampling function. -/
def c7w_fn : FunctionDesc := { name := "node_tex_image" }

/-- A converter state binding the witness coordinate socket. -/
def c7w_state : ConverterState :=
  { init_converter 4 with in_sockets_map := [("Vector", .var "node4_in0_vector")] }

theorem c7_witness :
    texture_hint c7w_graph "Tex" 5 = some Hint.ALBEDO
    ∧ (Hint.ALBEDO = Hint.ALBEDO ↔ (is_normal_texture c7w_graph "Tex" 5 = some false
        ∧ is_albedo_texture c7w_graph "Tex" 5 = some true))
    ∧ ((imagetex_parse c7w_state c7w_node c7w_graph 5 77 c7w_fn).getD
        (init_converter 0)).textures.length = c7w_state.textures.length + 1 :=
  ⟨rfl, ((c7_texture_hint_amended c7w_graph "Tex" 5).1 Hint.ALBEDO rfl).2.1,
    (c7_texture_hint_amended c7w_graph "Tex" 5).2 c7w_state c7w_node 77 c7w_fn _ rfl⟩

/-- Modelled from the spec (§6): the external function registry lookup by
name, parameterized by the list of registered function names; a registered
name resolves to the descriptor of that name, an unregistered one to
not-found. -/
def find_function_by_name (registry : List String) (name : String) :
    Option FunctionDesc :=
  if name ∈ registry then some { name := name } else none

/-- The blend-function lookup of the color mixer with its fallback: a
failed lookup logs a warning, appends a warning comment, and retries with
the default mix blend. -/
def mixrgb_lookup (st : ConverterState) (node : BlNode) (registry : List String)
    (rgb_mix_func_name : String) : Option FunctionDesc × ConverterState :=
  match find_function_by_name registry rgb_mix_func_name with
  | some f => (some f, st)
  | none =>
      let warning_str := "blend type " ++ node.blend_type ++ " not supported at "
        ++ node.name ++ ", fall back to blend type MIX"
      (find_function_by_name registry "node_mix_rgb_mix",
        { st with
            warnings := st.warnings ++ [warning_str],
            local_code := st.local_code ++ ["// " ++ warning_str] })

/-- `MixRgbNodeConverter.parse_node_to_fragment`: clamp the factor, look up
the blend function for the lower-cased blend type, fall back to the mix
blend with a warning and a warning comment when that lookup fails, invoke
the function into a fresh output identifier, and clamp the result when the
node requests clamped output. -/
def mixrgb_parse (st : ConverterState) (node : BlNode) (registry : List String) :
    Option ConverterState := do
  let color1_socket ← node.input_socket "Color1"
  let color2_socket ← node.input_socket "Color2"
  let fac_socket ← node.input_socket "Fac"
  let fac_id ← (dictGet st.in_sockets_map fac_socket.name).bind Binding.asVar
  let color1_id ← (dictGet st.in_sockets_map color1_socket.name).bind Binding.asVar
  let color2_id ← (dictGet st.in_sockets_map color2_socket.name).bind Binding.asVar
  let blend_type := strLower node.blend_type
  let rgb_mix_func_name := "node_mix_rgb_" ++ blend_type
  let st := { st with local_code := st.local_code
    ++ [fac_id ++ " = clamp(" ++ fac_id ++ ", 0.0, 1.0)"] }
  let found := mixrgb_lookup st node registry rgb_mix_func_name
  let mix_func ← found.1
  let st := found.2
  let out_color_socket ← node.output_socket "Color"
  let gen := generate_socket_id_str st out_color_socket
  let out_color_id := gen.1
  let st := add_function_call gen.2 mix_func.name
    [fac_id, color1_id, color2_id, out_color_id]
  let st :=
    if node.use_clamp then
      { st with local_code := st.local_code
        ++ [out_color_id ++ " = clamp(" ++ out_color_id ++ ", vec4(0.0), vec4(1.0))"] }
    else st
  pure { st with out_sockets_map := dictSet st.out_sockets_map "Color" (.var out_color_id) }

theorem generate_socket_id_str_pres (st : ConverterState) (socket : Socket) :
    (generate_socket_id_str st socket).2.local_code = st.local_code
    ∧ (generate_socket_id_str st socket).2.warnings = st.warnings
    ∧ (generate_socket_id_str st socket).2.out_sockets_map = st.out_sockets_map := by
  unfold generate_socket_id_str
  split <;> exact ⟨rfl, rfl, rfl⟩

/-- C8: for a color-mixer node whose sockets resolve, processing emits the
factor clamp first, then (only when the blend-specific function is
unregistered) a warning comment together with exactly one logged warning,
then the blend function call — the blend-specific function when registered,
node_mix_rgb_mix otherwise — and a final result clamp exactly when the node
requests clamped output; the output socket is bound to the fresh result
identifier. -/
theorem c8_mix_rgb_fallback
    (st : ConverterState) (node : BlNode) (registry : List String)
    (c1s c2s fs outs : Socket) (fac c1 c2 : String)
    (h1 : node.input_socket "Color1" = some c1s)
    (h2 : node.input_socket "Color2" = some c2s)
    (h3 : node.input_socket "Fac" = some fs)
    (h4 : (dictGet st.in_sockets_map fs.name).bind Binding.asVar = some fac)
    (h5 : (dictGet st.in_sockets_map c1s.name).bind Binding.asVar = some c1)
    (h6 : (dictGet st.in_sockets_map c2s.name).bind Binding.asVar = some c2)
    (h7 : node.output_socket "Color" = some outs)
    (hmix : "node_mix_rgb_mix" ∈ registry) :
    ∃ (stF : ConverterState) (out_id : String),
      mixrgb_parse st node registry = some stF
      ∧ stF.local_code = st.local_code
          ++ [fac ++ " = clamp(" ++ fac ++ ", 0.0, 1.0)"]
          ++ (if ("node_mix_rgb_" ++ strLower node.blend_type) ∈ registry then []
              else ["// " ++ ("blend type " ++ node.blend_type ++ " not supported at "
                ++ node.name ++ ", fall back to blend type MIX")])
          ++ [(if ("node_mix_rgb_" ++ strLower node.blend_type) ∈ registry
                then "node_mix_rgb_" ++ strLower node.blend_type
                else "node_mix_rgb_mix")
              ++ "(" ++ (fac ++ ", " ++ c1 ++ ", " ++ c2 ++ ", " ++ out_id) ++ ");"]
          ++ (if node.use_clamp then
                [out_id ++ " = clamp(" ++ out_id ++ ", vec4(0.0), vec4(1.0))"]
              else [])
      ∧ stF.warnings = st.warnings
          ++ (if ("node_mix_rgb_" ++ strLower node.blend_type) ∈ registry then []
              else ["blend type " ++ node.blend_type ++ " not supported at "
                ++ node.name ++ ", fall back to blend type MIX"])
      ∧ dictGet stF.out_sockets_map "Color" = some (.var out_id) := by
  by_cases hf : ("node_mix_rgb_" ++ strLower node.blend_type) ∈ registry
  · set stc : ConverterState := { st with local_code := st.local_code
      ++ [fac ++ " = clamp(" ++ fac ++ ", 0.0, 1.0)"] } with hstc
    set g := generate_socket_id_str stc outs with hg
    set st2 : ConverterState := add_function_call g.2
      ("node_mix_rgb_" ++ strLower node.blend_type) [fac, c1, c2, g.1] with hst2
    set st3 : ConverterState := (if node.use_clamp then
        { st2 with local_code := st2.local_code
          ++ [g.1 ++ " = clamp(" ++ g.1 ++ ", vec4(0.0), vec4(1.0))"] }
      else st2) with hst3
    have hfind : find_function_by_name registry
        ("node_mix_rgb_" ++ strLower node.blend_type)
        = some { name := "node_mix_rgb_" ++ strLower node.blend_type } := by
      simp [find_function_by_name, hf]
    have hlook : mixrgb_lookup stc node registry
        ("node_mix_rgb_" ++ strLower node.blend_type)
        = (some { name := "node_mix_rgb_" ++ strLower node.blend_type }, stc) := by
      unfold mixrgb_lookup
      rw [hfind]
    have hrun : mixrgb_parse st node registry = some
        { st3 with out_sockets_map := dictSet st3.out_sockets_map "Color" (.var g.1) } := by
      unfold mixrgb_parse
      rw [h1]
      simp only [Option.bind_eq_bind, Option.some_bind]
      rw [h2]
      simp only [Option.bind_eq_bind, Option.some_bind]
      rw [h3]
      simp only [Option.bind_eq_bind, Option.some_bind]
      rw [h4]
      simp only [Option.bind_eq_bind, Option.some_bind]
      rw [h5]
      simp only [Option.bind_eq_bind, Option.some_bind]
      rw [h6]
      simp only [Option.bind_eq_bind, Option.some_bind]
      rw [← hstc, hlook]
      simp only [Option.bind_eq_bind, Option.some_bind]
      rw [h7]
      simp only [Option.bind_eq_bind, Option.some_bind]
      rw [← hg, ← hst2, ← hst3]
      rfl
    have hcode3 : st3.local_code = stc.local_code
        ++ [("node_mix_rgb_" ++ strLower node.blend_type)
            ++ "(" ++ (fac ++ ", " ++ c1 ++ ", " ++ c2 ++ ", " ++ g.1) ++ ");"]
        ++ (if node.use_clamp then
              [g.1 ++ " = clamp(" ++ g.1 ++ ", vec4(0.0), vec4(1.0))"]
            else []) := by
      rw [hst3]
      by_cases hc : node.use_clamp = true
      · simp only [if_pos hc]
        rw [hst2]
        show (add_function_call g.2 _ _).local_code ++ _ = _
        unfold add_function_call
        rw [(generate_socket_id_str_pres stc outs).1]
        rfl
      · simp only [if_neg hc]
        rw [hst2, List.append_nil]
        unfold add_function_call
        rw [(generate_socket_id_str_pres stc outs).1]
        rfl
    refine ⟨_, g.1, hrun, ?_, ?_, ?_⟩
    · show st3.local_code = _
      rw [hcode3]
      simp only [if_pos hf, List.append_nil, List.append_assoc]
    · show st3.warnings = _
      have hw3 : st3.warnings = st.warnings := by
        rw [hst3]
        by_cases hc : node.use_clamp = true
        · simp only [if_pos hc]
          rw [hst2]
          show (generate_socket_id_str stc outs).2.warnings = st.warnings
          rw [(generate_socket_id_str_pres stc outs).2.1]
        · simp only [if_neg hc]
          rw [hst2]
          show (generate_socket_id_str stc outs).2.warnings = st.warnings
          rw [(generate_socket_id_str_pres stc outs).2.1]
      rw [hw3]
      simp [hf]
    · exact dictGet_set_self _ _ _
  · set stc : ConverterState := { st with local_code := st.local_code
      ++ [fac ++ " = clamp(" ++ fac ++ ", 0.0, 1.0)"] } with hstc
    set st1 : ConverterState := { stc with
      warnings := stc.warnings ++ ["blend type " ++ node.blend_type
        ++ " not supported at " ++ node.name ++ ", fall back to blend type MIX"],
      local_code := stc.local_code ++ ["// " ++ ("blend type " ++ node.blend_type
        ++ " not supported at " ++ node.name ++ ", fall back to blend type MIX")] }
      with hst1
    set g := generate_socket_id_str st1 outs with hg
    set st2 : ConverterState := add_function_call g.2 "node_mix_rgb_mix"
      [fac, c1, c2, g.1] with hst2
    set st3 : ConverterState := (if node.use_clamp then
        { st2 with local_code := st2.local_code
          ++ [g.1 ++ " = clamp(" ++ g.1 ++ ", vec4(0.0), vec4(1.0))"] }
      else st2) with hst3
    have hfind : find_function_by_name registry
        ("node_mix_rgb_" ++ strLower node.blend_type) = none := by
      simp [find_function_by_name, hf]
    have hfind2 : find_function_by_name registry "node_mix_rgb_mix"
        = some { name := "node_mix_rgb_mix" } := by
      simp [find_function_by_name, hmix]
    have hlook : mixrgb_lookup stc node registry
        ("node_mix_rgb_" ++ strLower node.blend_type)
        = (some { name := "node_mix_rgb_mix" }, st1) := by
      unfold mixrgb_lookup
      rw [hfind, hfind2]
    have hrun : mixrgb_parse st node registry = some
        { st3 with out_sockets_map := dictSet st3.out_sockets_map "Color" (.var g.1) } := by
      unfold mixrgb_parse
      rw [h1]
      simp only [Option.bind_eq_bind, Option.some_bind]
      rw [h2]
      simp only [Option.bind_eq_bind, Option.some_bind]
      rw [h3]
      simp only [Option.bind_eq_bind, Option.some_bind]
      rw [h4]
      simp only [Option.bind_eq_bind, Option.some_bind]
      rw [h5]
      simp only [Option.bind_eq_bind, Option.some_bind]
      rw [h6]
      simp only [Option.bind_eq_bind, Option.some_bind]
      rw [← hstc, hlook]
      simp only [Option.bind_eq_bind, Option.some_bind]
      rw [h7]
      simp only [Option.bind_eq_bind, Option.some_bind]
      rw [← hg, ← hst2, ← hst3]
      rfl
    have hcode3 : st3.local_code = st1.local_code
        ++ ["node_mix_rgb_mix"
            ++ "(" ++ (fac ++ ", " ++ c1 ++ ", " ++ c2 ++ ", " ++ g.1) ++ ");"]
        ++ (if node.use_clamp then
              [g.1 ++ " = clamp(" ++ g.1 ++ ", vec4(0.0), vec4(1.0))"]
            else []) := by
      rw [hst3]
      by_cases hc : node.use_clamp = true
      · simp only [if_pos hc]
        rw [hst2]
        show (add_function_call g.2 _ _).local_code ++ _ = _
        unfold add_function_call
        rw [(generate_socket_id_str_pres st1 outs).1]
        rfl
      · simp only [if_neg hc]
        rw [hst2, List.append_nil]
        unfold add_function_call
        rw [(generate_socket_id_str_pres st1 outs).1]
        rfl
    refine ⟨_, g.1, hrun, ?_, ?_, ?_⟩
    · show st3.local_code = _
      rw [hcode3]
      simp only [if_neg hf, List.append_assoc]
    · show st3.warnings = _
      have hw3 : st3.warnings = st1.warnings := by
        rw [hst3]
        by_cases hc : node.use_clamp = true
        · simp only [if_pos hc]
          rw [hst2]
          show (generate_socket_id_str st1 outs).2.warnings = st1.warnings
          rw [(generate_socket_id_str_pres st1 outs).2.1]
        · simp only [if_neg hc]
          rw [hst2]
          show (generate_socket_id_str st1 outs).2.warnings = st1.warnings
          rw [(generate_socket_id_str_pres st1 outs).2.1]
      rw [hw3]
      simp [hf]
    · exact dictGet_set_self _ _ _


/-- A color mixer requesting an unimplemented blend type and clamped
output. -/
def c8w_node : BlNode :=
  { bl_idname := "ShaderNodeMixRGB"
    name := "Mix"
    blend_type := "OVERLAY"
    use_clamp := true
    inputs := [{ name := "Fac", type := .VALUE },
      { name := "Color1", type := .RGBA }, { name := "Color2", type := .RGBA }]
    outputs := [{ name := "Color", type := .RGBA, is_output := true }] }

/-- A converter state binding the three mixer inputs. -/
def c8w_state : ConverterState :=
  { init_converter 5 with in_sockets_map :=
      [("Fac", .var "f"), ("Color1", .var "a"), ("Color2", .var "b")] }

/-- A registry carrying only the default mix blend function. -/
def c8w_registry : List String := ["node_mix_rgb_mix"]

theorem c8_witness :
    ∃ (stF : ConverterState) (out_id : String),
      mixrgb_parse c8w_state c8w_node c8w_registry = some stF
      ∧ stF.local_code = c8w_state.local_code
          ++ ["f = clamp(f, 0.0, 1.0)"]
          ++ ["// blend type OVERLAY not supported at Mix, fall back to blend type MIX"]
          ++ ["node_mix_rgb_mix" ++ "(" ++ ("f" ++ ", " ++ "a" ++ ", " ++ "b" ++ ", "
              ++ out_id) ++ ");"]
          ++ [out_id ++ " = clamp(" ++ out_id ++ ", vec4(0.0), vec4(1.0))"]
      ∧ stF.warnings = c8w_state.warnings
          ++ ["blend type OVERLAY not supported at Mix, fall back to blend type MIX"]
      ∧ dictGet stF.out_sockets_map "Color" = some (.var out_id) :=
  c8_mix_rgb_fallback c8w_state c8w_node c8w_registry _ _ _ _ "f" "a" "b"
    rfl rfl rfl rfl rfl rfl rfl (by decide)

/-- The fixed table of specially handled node kinds. -/
def NODE_CONVERTERS : List String :=
  ["ShaderNodeMapping", "ShaderNodeTexImage", "ShaderNodeTexCoord",
   "ShaderNodeRGB", "ShaderNodeMixRGB", "ShaderNodeNormalMap",
   "ShaderNodeBump", "NodeReroute", "ShaderNodeMixShader",
   "ShaderNodeAddShader", "ShaderNodeTangent", "ShaderNodeUVMap",
   "ShaderNodeValue", "ShaderNodeNewGeometry", "ShaderNodeHueSaturation",
   "ShaderNodeInvert"]

/-- The converter variant `converter_factory` selects for a node. -/
inductive ConverterKind where
  | dedicated (idname : String)
  | bsdf
  | general
  | invalid
deriving DecidableEq

/-- Modelled from the spec (§6): `node_has_function` — whether the function
registry has an entry for the node's kind. -/
def node_has_function (registry : List String) (node : BlNode) : Bool :=
  node.bl_idname ∈ registry

/-- Whether the node's first output socket identifies as a shading closure,
with the emptiness guard of the source's truthiness test. -/
def first_output_is_closure (node : BlNode) : Bool :=
  match node.outputs.head? with
  | some s => decide (s.identifier ∈ (["Emission", "BSDF", "BSSRDF"] : List String))
  | none => false

/-- `converter_factory`: dedicated converter for a tabulated kind, the
generic BSDF converter for a closure-producing node, the generic
function-call converter for a registered kind, the invalid stub
otherwise. -/
def converter_factory (registry : List String) (node : BlNode) : ConverterKind :=
  if node.bl_idname ∈ NODE_CONVERTERS then .dedicated node.bl_idname
  else if first_output_is_closure node then .bsdf
  else if node_has_function registry node then .general
  else .invalid

/-- `InvalidNodeConverter.is_valid`. -/
def invalid_is_valid : Bool := false

/-- `InvalidNodeConverter.parse_node_to_fragment`: a warning comment and
nothing else. -/
def invalid_parse (st : ConverterState) : ConverterState :=
  { st with local_code := st.local_code ++ ["// Warn: node not supported"] }

/-- C9: the factory follows exactly the claimed fallback chain — table
lookup, then closure-output test on the first output socket's identifier,
then registry lookup, then the invalid stub — and the invalid stub reports
itself invalid and emits exactly the warning comment. -/
theorem c9_converter_factory_chain (registry : List String) (node : BlNode) :
    (node.bl_idname ∈ NODE_CONVERTERS →
      converter_factory registry node = .dedicated node.bl_idname)
    ∧ (node.bl_idname ∉ NODE_CONVERTERS → ∀ s : Socket, node.outputs.head? = some s →
        s.identifier ∈ (["Emission", "BSDF", "BSSRDF"] : List String) →
        converter_factory registry node = .bsdf)
    ∧ (node.bl_idname ∉ NODE_CONVERTERS → first_output_is_closure node = false →
        node.bl_idname ∈ registry → converter_factory registry node = .general)
    ∧ (node.bl_idname ∉ NODE_CONVERTERS → first_output_is_closure node = false →
        node.bl_idname ∉ registry → converter_factory registry node = .invalid)
    ∧ invalid_is_valid = false
    ∧ (∀ st : ConverterState, invalid_parse st
        = { st with local_code := st.local_code ++ ["// Warn: node not supported"] }) := by
  refine ⟨?_, ?_, ?_, ?_, rfl, fun st => rfl⟩
  · intro h
    unfold converter_factory
    rw [if_pos h]
  · intro h s hs hmem
    unfold converter_factory
    rw [if_neg h, if_pos]
    unfold first_output_is_closure
    rw [hs]
    simpa using hmem
  · intro h1 h2 h3
    unfold converter_factory
    rw [if_neg h1, if_neg (by simp [h2]), if_pos (by simp [node_has_function, h3])]
  · intro h1 h2 h3
    unfold converter_factory
    rw [if_neg h1, if_neg (by simp [h2]), if_neg (by simp [node_has_function, h3])]

/-- The closure output socket of the witness node. -/
def c9w_sock : Socket :=
  { name := "Emission", type := .SHADER, identifier := "Emission", is_output := true }

/-- A closure node of a kind absent from the dedicated table. -/
def c9w_node : BlNode :=
  { bl_idname := "ShaderNodeEmission"
    name := "Emission"
    outputs := [c9w_sock] }

theorem c9_witness :
    c9w_node.bl_idname ∉ NODE_CONVERTERS
    ∧ converter_factory [] c9w_node = .bsdf :=
  ⟨by decide,
    (c9_converter_factory_chain [] c9w_node).2.1 (by decide) c9w_sock rfl (by decide)⟩

/-- Modelled from the Python builtin str.isidentifier restricted to ASCII:
nonempty, a letter or underscore first, then letters, digits and
underscores. -/
def py_isidentifier (s : String) : Bool :=
  match s.data with
  | [] => false
  | c :: cs => (c.isAlpha || c = '_') && cs.all (fun d => d.isAlphanum || d = '_')

/-- The collection loop of `initialize_outputs`: the declarations each
bound output socket asks for; a shader-typed socket contributes one
declaration per bound link property, a socket bound to a raw link object
where a string is expected is a fatal attribute error. -/
def collect_output_defs (m : List (String × Binding)) :
    List Socket → Option (List (String × Binding))
  | [] => some []
  | s :: rest => do
      let head ←
        match dictGet m s.name with
        | none => some []
        | some b =>
            if s.type ≠ .SHADER then do
              let ts ← socket_to_type_string s.type
              pure [(ts, b)]
            else
              match b with
              | .shader l => some (FragmentShaderLink.ALL_PROPERTIES.filterMap
                  (fun p => (l.get_property p).map
                    (fun idv => (FragmentShaderLink.get_property_type p, Binding.var idv))))
              | .var _ => none
      let tail ← collect_output_defs m rest
      pure (head ++ tail)

/-- `initialize_outputs`: emit one declaration per collected identifier,
skipping identifiers already declared; the assert that every collected
value is an identifier string is modelled as `none`. -/
def initialize_outputs (st : ConverterState) (outputs : List Socket) :
    Option ConverterState := do
  let id_to_define ← collect_output_defs st.out_sockets_map outputs
  id_to_define.foldlM
    (fun st td =>
      match td.2 with
      | .shader _ => none
      | .var id_str =>
          if py_isidentifier id_str = false then none
          else if id_str ∈ st.defined_ids then some st
          else some { st with
            defined_ids := st.defined_ids ++ [id_str],
            output_definitions := st.output_definitions ++ [td.1 ++ " " ++ id_str] })
    st

/-- `ValueNodeConverter.parse_node_to_fragment`: bind the Value output to
the full assignment text instead of the bare identifier. -/
def value_parse (st : ConverterState) (node : BlNode) : Option ConverterState := do
  let value_socket ← node.outputs.find? (fun s => s.name = "Value")
  let gen := generate_socket_id_str st value_socket
  let value_str := blender_value_to_string value_socket.default_value
  pure { gen.2 with
    out_sockets_map := (dictSet gen.2.out_sockets_map "Value"
      (.var (gen.1 ++ " = " ++ value_str))) }

/-- The Value output socket of a value-constant node with the given
default. -/
def mkValueSocket (dv : BValue) : Socket :=
  { name := "Value", type := .VALUE, is_output := true, default_value := dv }

/-- A value-constant node with the given default. -/
def mkValueNode (dv : BValue) : BlNode :=
  { bl_idname := "ShaderNodeValue"
    name := "Value"
    outputs := [mkValueSocket dv] }

theorem isident_false_of_space {s : String} (h : ' ' ∈ s.data) :
    py_isidentifier s = false := by
  rcases hs : s.data with _ | ⟨c, cs⟩
  · rw [hs] at h
    simp at h
  · have hred : py_isidentifier s
        = ((c.isAlpha || c = '_') && cs.all (fun d => d.isAlphanum || d = '_')) := by
      unfold py_isidentifier
      rw [hs]
    rw [hred]
    rw [hs] at h
    rcases List.mem_cons.mp h with h1 | h1
    · rw [← h1]
      rfl
    · have hall : cs.all (fun d => d.isAlphanum || d = '_') = false :=
        List.all_eq_false.mpr ⟨' ', h1, by decide⟩
      rw [hall]
      simp

theorem space_mem_assign (a b : String) : ' ' ∈ (a ++ " = " ++ b).data := by
  have h1 : ' ' ∈ a.data ++ ([' ', '=', ' '] : List Char) :=
    List.mem_append_right _ (by decide)
  exact List.mem_append_left _ h1

/-- C10: the value-constant converter binds its output socket to the full
assignment text, not a bare identifier, so whenever that output is
finalized the isidentifier assertion of `initialize_outputs` fails and no
declaration is produced. -/
theorem c10_value_node_assertion (st : ConverterState) (dv : BValue) :
    ∃ stF : ConverterState,
      value_parse st (mkValueNode dv) = some stF
      ∧ dictGet stF.out_sockets_map "Value" = some (.var
          ((generate_socket_id_str st (mkValueSocket dv)).1
            ++ " = " ++ blender_value_to_string dv))
      ∧ initialize_outputs stF (mkValueNode dv).outputs = none := by
  set vs : Socket := mkValueSocket dv with hvs
  set g := generate_socket_id_str st vs with hg
  set stF : ConverterState := { g.2 with
    out_sockets_map := dictSet g.2.out_sockets_map "Value"
      (.var (g.1 ++ " = " ++ blender_value_to_string dv)) } with hstF
  have hrun : value_parse st (mkValueNode dv) = some stF := rfl
  have hget : dictGet stF.out_sockets_map "Value"
      = some (.var (g.1 ++ " = " ++ blender_value_to_string dv)) :=
    dictGet_set_self _ _ _
  refine ⟨stF, hrun, hget, ?_⟩
  unfold initialize_outputs
  have hcollect : collect_output_defs stF.out_sockets_map (mkValueNode dv).outputs
      = some [("float", .var (g.1 ++ " = " ++ blender_value_to_string dv))] := by
    show collect_output_defs stF.out_sockets_map [vs] = _
    unfold collect_output_defs
    rw [show vs.name = "Value" from rfl, hget]
    rfl
  rw [hcollect]
  simp only [Option.bind_eq_bind, Option.some_bind]
  have hid : py_isidentifier (g.1 ++ " = " ++ blender_value_to_string dv) = false :=
    isident_false_of_space (space_mem_assign _ _)
  show List.foldlM _ _ _ = none
  simp only [List.foldlM, hid]
  rfl

end NodeConv
